import Mathlib

/-!
Verification of the simulation stepping engine of the robotics handbook
repository (`simulation_environment/core/simulator.py` and
`simulation_environment/middle_level_library/motors.py`) against its
natural-language specification.

The Python code is shallowly embedded over exact rationals (`ℚ`).  Python
floats are modelled by `ℚ`; the square root hidden inside `math.hypot` is
modelled by an explicit oracle parameter `hypotF : ℚ → ℚ → ℚ` together with
exactness hypotheses in the theorems (floating point computes `hypot`
up to rounding; at exactly representable inputs the two agree).  Non-finite
float values (NaN, ±inf), which `ℚ` cannot represent, are modelled where a
claim needs them by the wrapper type `FloatQ` below.  Warnings and Python
exceptions are modelled by small inductive types instead of formatted
strings.

External collaborators that are not part of the repository sources under
verification (the `low_level_mechanics` package: `Pose2D`, `SimObject`
integration, `collision_manifold`; sensors; the controller) are modelled
from the spec where the simulator code needs them and are marked
`Modelled from the spec:` in their doc comments.  Everything else is a
line-by-line translation of the Python source.
-/

namespace RoboSim

/-- Python `max(lo, min(hi, v))` / `motors._clamp(value, lo, hi)`
(motors.py line 276). -/
def clampQ (v lo hi : ℚ) : ℚ := max lo (min hi v)

/-- `hypotF` models the float routine `math.hypot`; `IsExactHypot f x y`
says the routine returns the exact nonnegative square root of `x² + y²`
at the input `(x, y)` (floating tolerance collapses to exactness at
exactly representable points). -/
def IsExactHypot (f : ℚ → ℚ → ℚ) (x y : ℚ) : Prop :=
  0 ≤ f x y ∧ f x y * f x y = x * x + y * y

/-- Modelled from the spec: `low_level_mechanics.world.Pose2D`
(§3: a pose is a 2D position plus a heading angle). -/
structure Pose2D where
  x : ℚ
  y : ℚ
  theta : ℚ
  deriving Repr, DecidableEq

/-- Modelled from the spec: `Pose2D.translated(dx, dy)` shifts the
position, keeping the heading (used by the joint and contact solvers). -/
def Pose2D.translated (p : Pose2D) (dx dy : ℚ) : Pose2D :=
  { p with x := p.x + dx, y := p.y + dy }

/-- Modelled from the spec: `Pose2D.transform_point` maps a body-local
anchor point into world coordinates (rotate by the heading, then
translate).  The cosine/sine pair of a heading is supplied by the trig
oracle `trig : ℚ → ℚ × ℚ`, modelling the float routines `cos`/`sin`. -/
def transformPoint (trig : ℚ → ℚ × ℚ) (p : Pose2D) (a : ℚ × ℚ) : ℚ × ℚ :=
  ((trig p.theta).1 * a.1 - (trig p.theta).2 * a.2 + p.x,
   (trig p.theta).2 * a.1 + (trig p.theta).1 * a.2 + p.y)

/-- Modelled from the spec: `Pose2D.compose(mount)` composes a body pose
with a body-local mount pose (§4.5: "a world contact point and heading
direction from its mount pose composed with its parent body's pose"). -/
def composePose (trig : ℚ → ℚ × ℚ) (p m : Pose2D) : Pose2D :=
  { x := p.x + (trig p.theta).1 * m.x - (trig p.theta).2 * m.y,
    y := p.y + (trig p.theta).2 * m.x + (trig p.theta).1 * m.y,
    theta := p.theta + m.theta }

/-- The two material fields the contact solver reads
(`low_level_mechanics.materials.MaterialProperties`, modelled from the
spec: §3 material carries friction and restitution). -/
structure MaterialProperties where
  friction : ℚ
  restitution : ℚ
  deriving Repr, DecidableEq

/-- Modelled from the spec: `low_level_mechanics.entities.DynamicState`
(§3: mass, moment of inertia, linear velocity, angular velocity), plus
the force accumulator used by `apply_force`/`integrate`. -/
structure DynamicState where
  mass : ℚ
  moment_of_inertia : ℚ
  linear_velocity : ℚ × ℚ
  angular_velocity : ℚ
  force_accum : ℚ × ℚ
  deriving Repr, DecidableEq

/-- Modelled from the spec: `low_level_mechanics.entities.SimObject`
(§3: a rigid body with pose, material, movability flag and dynamic
state; the collision shape is opaque to the core and omitted). -/
structure SimObject where
  name : String
  pose : Pose2D
  material : MaterialProperties
  can_move : Bool
  state : DynamicState
  deriving Repr, DecidableEq

/-- Modelled from the spec: `SimObject.apply_force` accumulates an
external force to be applied during the next `integrate`. -/
def SimObject.apply_force (b : SimObject) (f : ℚ × ℚ) : SimObject :=
  { b with state := { b.state with
      force_accum := (b.state.force_accum.1 + f.1, b.state.force_accum.2 + f.2) } }

/-- Modelled from the spec: `SimObject.clear_impulses` discards
accumulated forces (§4.2: immovable bodies "have their accumulated
external impulses discarded each tick"). -/
def SimObject.clear_impulses (b : SimObject) : SimObject :=
  { b with state := { b.state with force_accum := (0, 0) } }

/-- Modelled from the spec: `SimObject.integrate(dt)` — semi-implicit
Euler (§4.2: velocity is updated first from the accumulated force, then
the pose advances using the updated velocity); the force accumulator is
cleared afterwards. -/
def SimObject.integrate (b : SimObject) (dt : ℚ) : SimObject :=
  let m := max b.state.mass (1 / 1000000000)
  let vx := b.state.linear_velocity.1 + b.state.force_accum.1 / m * dt
  let vy := b.state.linear_velocity.2 + b.state.force_accum.2 / m * dt
  { b with
    pose := { b.pose with
      x := b.pose.x + vx * dt,
      y := b.pose.y + vy * dt,
      theta := b.pose.theta + b.state.angular_velocity * dt },
    state := { b.state with
      linear_velocity := (vx, vy),
      force_accum := (0, 0) } }

/-- Physics warnings recorded by `Simulator._flag_warning`
(simulator.py lines 481-484); the Python code formats strings, we keep
the structured cases. -/
inductive Warn where
  | invalidLinear (body : String)
  | invalidAngular (body : String)
  | clampedLinear (body : String)
  | clampedAngular (body : String)
  | invalidPose (body : String)
  | invalidStepDist (body : String)
  | largeStep (body : String)
  deriving Repr, DecidableEq

/-- Python exceptions that scenario loading can raise. -/
inductive PyErr where
  | valueError (msg : String)
  | typeError (msg : String)
  deriving Repr, DecidableEq

/-- `last_physics_warning` is last-write-wins (simulator.py line 482,
spec §4.2: "Only the most recent warning message is retained per
tick"): fold a list of freshly flagged warnings over the current one. -/
def applyWarnings (cur : Option Warn) (ws : List Warn) : Option Warn :=
  ws.foldl (fun _ w => some w) cur

/-- `Simulator._sanitize_velocity` (simulator.py lines 486-504) over the
`ℚ` embedding.  The `math.isfinite` branches are vacuous over `ℚ` (every
rational is finite) and are modelled separately on `FloatQ` by
`sanitize_velocity_checked`; the clamping branches are translated
verbatim.  Returns the updated body together with the warnings flagged,
in flagging order. -/
def sanitize_velocity (hypotF : ℚ → ℚ → ℚ) (maxLin maxAng : ℚ)
    (b : SimObject) : SimObject × List Warn :=
  let vx := b.state.linear_velocity.1
  let vy := b.state.linear_velocity.2
  let omega := b.state.angular_velocity
  let speed := hypotF vx vy
  let (lin, w1) : (ℚ × ℚ) × List Warn :=
    if maxLin > 0 ∧ speed > maxLin then
      let scale := maxLin / max speed (1 / 1000000000)
      ((vx * scale, vy * scale), [Warn.clampedLinear b.name])
    else ((vx, vy), [])
  let (ang, w2) : ℚ × List Warn :=
    if maxAng > 0 ∧ |omega| > maxAng then
      (if omega < 0 then -maxAng else maxAng, [Warn.clampedAngular b.name])
    else (omega, [])
  ({ b with state := { b.state with linear_velocity := lin, angular_velocity := ang } },
   w1 ++ w2)

/-- Float values as seen by `math.isfinite`: either an exact finite
value or a non-finite one (NaN, ±inf), whose numeric payload the
sanitizer never reads. -/
inductive FloatQ where
  | fin (q : ℚ)
  | nonfin
  deriving Repr, DecidableEq

/-- `math.isfinite` on the `FloatQ` model. -/
def FloatQ.isFinite : FloatQ → Bool
  | .fin _ => true
  | .nonfin => false

/-- The finite payload (only read after an `isFinite` check). -/
def FloatQ.val : FloatQ → ℚ
  | .fin q => q
  | .nonfin => 0

/-- `Simulator._sanitize_velocity` (simulator.py lines 486-504) with the
non-finite branches modelled: if either linear component is non-finite
the linear velocity is reset to `(0, 0)` with a warning; a non-finite
angular velocity is reset to `0` with a warning; then the magnitude
clamps run on the (now finite) values exactly as in
`sanitize_velocity`. -/
def sanitize_velocity_checked (hypotF : ℚ → ℚ → ℚ) (maxLin maxAng : ℚ)
    (name : String) (vx0 vy0 omega0 : FloatQ) : ((ℚ × ℚ) × ℚ) × List Warn :=
  let ((vx, vy), w1) : (ℚ × ℚ) × List Warn :=
    if vx0.isFinite ∧ vy0.isFinite then ((vx0.val, vy0.val), [])
    else ((0, 0), [Warn.invalidLinear name])
  let (omega, w2) : ℚ × List Warn :=
    if omega0.isFinite then (omega0.val, [])
    else (0, [Warn.invalidAngular name])
  let speed := hypotF vx vy
  let (lin, w3) : (ℚ × ℚ) × List Warn :=
    if maxLin > 0 ∧ speed > maxLin then
      let scale := maxLin / max speed (1 / 1000000000)
      ((vx * scale, vy * scale), [Warn.clampedLinear name])
    else ((vx, vy), [])
  let (ang, w4) : ℚ × List Warn :=
    if maxAng > 0 ∧ |omega| > maxAng then
      (if omega < 0 then -maxAng else maxAng, [Warn.clampedAngular name])
    else (omega, [])
  ((lin, ang), w1 ++ w2 ++ w3 ++ w4)

/-- `Simulator._sanitize_pose` (simulator.py lines 506-510): over `ℚ`
every pose component is finite, so the reset branch is unreachable and
the function is the identity with no warnings (recorded here to keep the
pipeline shape of the source). -/
def sanitize_pose (b : SimObject) : SimObject × List Warn := (b, [])

/-- `Simulator._integrate_bodies` (simulator.py lines 576-590), per
body: immovable or massless bodies only have their accumulated impulses
cleared; movable bodies get gravity applied as a force, exponential
damping on both velocities, velocity sanitation, semi-implicit
integration, and pose sanitation. -/
def integrate_body (hypotF : ℚ → ℚ → ℚ) (gravity : ℚ × ℚ)
    (linearDamping angularDamping maxLin maxAng dt : ℚ)
    (b : SimObject) : SimObject × List Warn :=
  if ¬ b.can_move ∨ b.state.mass ≤ 0 then (b.clear_impulses, [])
  else
    let b1 := b.apply_force (gravity.1 * b.state.mass, gravity.2 * b.state.mass)
    let b2 := { b1 with state := { b1.state with
      linear_velocity := (b1.state.linear_velocity.1 * linearDamping,
                          b1.state.linear_velocity.2 * linearDamping),
      angular_velocity := b1.state.angular_velocity * angularDamping } }
    let (b3, w3) := sanitize_velocity hypotF maxLin maxAng b2
    let b4 := b3.integrate dt
    let (b5, w5) := sanitize_pose b4
    (b5, w3 ++ w5)

/-- The body registry: Python's insertion-ordered `dict` of name to
body, with unique keys, as an association list. -/
abbrev Registry := List (String × SimObject)

/-- Overwrite one registry entry by key (a Python `dict` write). -/
def Registry.update (reg : Registry) (n : String) (b : SimObject) : Registry :=
  reg.map (fun p => if p.1 = n then (n, b) else p)

/-- `Simulator._integrate_bodies` over the whole registry, in
registry (dict insertion) order, collecting flagged warnings. -/
def integrate_bodies (hypotF : ℚ → ℚ → ℚ) (gravity : ℚ × ℚ)
    (linearDamping angularDamping maxLin maxAng dt : ℚ)
    (reg : Registry) : Registry × List Warn :=
  let step := fun (acc : Registry × List Warn) (p : String × SimObject) =>
    let (b', w) := integrate_body hypotF gravity linearDamping angularDamping
        maxLin maxAng dt p.2
    (acc.1 ++ [(p.1, b')], acc.2 ++ w)
  reg.foldl step ([], [])

/-- `Simulator._check_step_sanity` (simulator.py lines 512-535), per
movable body: compare the post-step position with the pre-step one; the
non-finite branch is vacuous over `ℚ`; a translation larger than the
ceiling is rescaled linearly back toward the ceiling (pre-step pose kept
when the distance is below `1e-9`). -/
def check_step_sanity_body (hypotF : ℚ → ℚ → ℚ) (limit dt : ℚ)
    (prev : Pose2D) (b : SimObject) : SimObject × List Warn :=
  let dx := b.pose.x - prev.x
  let dy := b.pose.y - prev.y
  let dist := hypotF dx dy
  if dist > limit then
    if dist > 1 / 1000000000 then
      let scale := limit / dist
      ({ b with pose := { x := prev.x + dx * scale, y := prev.y + dy * scale,
                          theta := b.pose.theta } },
       [Warn.largeStep b.name])
    else ({ b with pose := prev }, [Warn.largeStep b.name])
  else (b, [])

/-- `Simulator._check_step_sanity` over the registry: a no-op when the
ceiling is not positive; immovable bodies and bodies without a recorded
pre-step pose are skipped. -/
def check_step_sanity (hypotF : ℚ → ℚ → ℚ) (maxStepTranslation dt : ℚ)
    (prevPoses : List (String × Pose2D)) (reg : Registry) : Registry × List Warn :=
  if maxStepTranslation ≤ 0 then (reg, [])
  else
    let step := fun (acc : Registry × List Warn) (p : String × SimObject) =>
      if ¬ p.2.can_move then (acc.1 ++ [p], acc.2)
      else
        match prevPoses.lookup p.1 with
        | none => (acc.1 ++ [p], acc.2)
        | some prev =>
            let (b', w) := check_step_sanity_body hypotF maxStepTranslation dt prev p.2
            (acc.1 ++ [(p.1, b')], acc.2 ++ w)
    reg.foldl step ([], [])

/-- `core.config.JointConfig` (config.py lines 38-49), the fields the
joint solver reads. -/
structure JointConfig where
  name : String
  parent : String
  child : String
  anchor_parent : ℚ × ℚ
  anchor_child : ℚ × ℚ
  lower_limit : ℚ
  upper_limit : ℚ
  deriving Repr, DecidableEq

/-- `Simulator.JointRuntime` (simulator.py lines 69-75): XPBD runtime
state per joint. -/
structure JointRuntime where
  cfg : JointConfig
  compliance : ℚ := 0
  damping : ℚ := 1 / 100
  lambda_accum : ℚ := 0
  deriving Repr, DecidableEq

/-- The target anchor separation of `Simulator._solve_joints`
(simulator.py line 604):
`target = jr.cfg.upper_limit if jr.cfg.lower_limit == jr.cfg.upper_limit else 0.0`. -/
def jointTargetSep (lower upper : ℚ) : ℚ :=
  if lower = upper then upper else 0

/-- The per-joint computation of `Simulator._solve_joints`
(simulator.py lines 599-623) once both bodies have been found: given the
movability flags and masses of parent and child, the world anchors
`pa`, `pb` and the value `dist` the float code obtained from
`math.hypot`, return `none` when the iteration `continue`s (both bodies
immovable, error below epsilon, or zero combined inverse mass), else
`some (dlambda, parentShift, childShift)` — the multiplier increment and
the positional corrections applied to the two poses.  The `isfinite`
guard on `dlambda` is vacuous over `ℚ`. -/
def solveJointCore (dt maxPenetrationCorrection : ℚ) (jr : JointRuntime)
    (parentMove childMove : Bool) (massA massB : ℚ)
    (pa pb : ℚ × ℚ) (dist : ℚ) : Option (ℚ × (ℚ × ℚ) × (ℚ × ℚ)) :=
  if ¬ parentMove ∧ ¬ childMove then none
  else
    let dx := pb.1 - pa.1
    let dy := pb.2 - pa.2
    let target := jointTargetSep jr.cfg.lower_limit jr.cfg.upper_limit
    let error := dist - target
    if |error| < 1 / 100000 then none
    else
      let n : ℚ × ℚ := (dx / (dist + 1 / 1000000), dy / (dist + 1 / 1000000))
      let inv_mass_a := if ¬ parentMove then 0 else 1 / max massA (1 / 1000000)
      let inv_mass_b := if ¬ childMove then 0 else 1 / max massB (1 / 1000000)
      let w := inv_mass_a + inv_mass_b
      if w = 0 then none
      else
        let alpha := 1 / (jr.compliance + 1 / 1000000000)
        let dlambda := -error * alpha / (w + alpha * dt * dt)
        let correction := max (-maxPenetrationCorrection)
          (min maxPenetrationCorrection dlambda)
        some (dlambda,
          (if parentMove then (-n.1 * correction * inv_mass_a, -n.2 * correction * inv_mass_a)
           else (0, 0)),
          (if childMove then (n.1 * correction * inv_mass_b, n.2 * correction * inv_mass_b)
           else (0, 0)))

/-- `Simulator._solve_joints` (simulator.py lines 592-623) over the
registry: joints whose parent or child name is missing from the registry
are silently skipped (`continue`); otherwise the core computation is
applied and both poses are translated. -/
def solve_joints (hypotF : ℚ → ℚ → ℚ) (trig : ℚ → ℚ × ℚ)
    (dt maxPenetrationCorrection : ℚ)
    (joints : List JointRuntime) (reg : Registry) : List JointRuntime × Registry :=
  let step := fun (acc : List JointRuntime × Registry) (jr : JointRuntime) =>
    match acc.2.lookup jr.cfg.parent, acc.2.lookup jr.cfg.child with
    | some parent, some child =>
        let pa := transformPoint trig parent.pose jr.cfg.anchor_parent
        let pb := transformPoint trig child.pose jr.cfg.anchor_child
        let dist := hypotF (pb.1 - pa.1) (pb.2 - pa.2)
        (match solveJointCore dt maxPenetrationCorrection jr
            parent.can_move child.can_move parent.state.mass child.state.mass
            pa pb dist with
         | none => (acc.1 ++ [jr], acc.2)
         | some (dlambda, pShift, cShift) =>
            let jr' := { jr with lambda_accum := jr.lambda_accum + dlambda }
            let reg' := acc.2.update jr.cfg.parent
              { parent with pose := parent.pose.translated pShift.1 pShift.2 }
            let reg'' := match reg'.lookup jr.cfg.child with
              | some child' => reg'.update jr.cfg.child
                  { child' with pose := child'.pose.translated cShift.1 cShift.2 }
              | none => reg'
            (acc.1 ++ [jr'], reg''))
    | _, _ => (acc.1 ++ [jr], acc.2)
  joints.foldl step ([], reg)

/-- The contact manifold the external geometry collaborator returns
(spec §3/§6: "normal vector and penetration depth for one pair of
overlapping bodies", consumed not owned). -/
structure Manifold where
  normal : ℚ × ℚ
  penetration : ℚ
  deriving Repr, DecidableEq

/-- The velocity (normal-impulse plus friction-impulse) phase of
`Simulator._solve_contacts` (simulator.py lines 655-699) for one
overlapping pair: the guards on non-finite quantities are vacuous over
`ℚ`; a separating pair (`vel_along_normal > 0`) is left unchanged; the
normal impulse is restitution-weighted and split by inverse mass over
linear velocities only; the friction impulse is computed against the
post-normal-impulse relative velocity and clamped to the Coulomb cone. -/
def contactVelocityUpdate (a b : SimObject) (normal : ℚ × ℚ)
    (inv_mass_a inv_mass_b : ℚ) : SimObject × SimObject :=
  let inv_mass_sum := inv_mass_a + inv_mass_b
  let rvx := a.state.linear_velocity.1 - b.state.linear_velocity.1
  let rvy := a.state.linear_velocity.2 - b.state.linear_velocity.2
  let vel_along_normal := rvx * normal.1 + rvy * normal.2
  if vel_along_normal > 0 then (a, b)
  else
    let restitution := clampQ (max a.material.restitution b.material.restitution) 0 1
    let j := -(1 + restitution) * vel_along_normal / inv_mass_sum
    let impulse := (j * normal.1, j * normal.2)
    let a1 := if a.can_move then
        { a with state := { a.state with linear_velocity :=
            (a.state.linear_velocity.1 - inv_mass_a * impulse.1,
             a.state.linear_velocity.2 - inv_mass_a * impulse.2) } }
      else a
    let b1 := if b.can_move then
        { b with state := { b.state with linear_velocity :=
            (b.state.linear_velocity.1 + inv_mass_b * impulse.1,
             b.state.linear_velocity.2 + inv_mass_b * impulse.2) } }
      else b
    let rvx1 := a1.state.linear_velocity.1 - b1.state.linear_velocity.1
    let rvy1 := a1.state.linear_velocity.2 - b1.state.linear_velocity.2
    let tangent : ℚ × ℚ := (-normal.2, normal.1)
    let vt := rvx1 * tangent.1 + rvy1 * tangent.2
    let jt0 := -vt / inv_mass_sum
    let mu := (a.material.friction + b.material.friction) / 2
    let jt_limit := mu * |j|
    let jt := max (-jt_limit) (min jt_limit jt0)
    let t_impulse := (jt * tangent.1, jt * tangent.2)
    let a2 := if a1.can_move then
        { a1 with state := { a1.state with linear_velocity :=
            (a1.state.linear_velocity.1 - inv_mass_a * t_impulse.1,
             a1.state.linear_velocity.2 - inv_mass_a * t_impulse.2) } }
      else a1
    let b2 := if b1.can_move then
        { b1 with state := { b1.state with linear_velocity :=
            (b1.state.linear_velocity.1 + inv_mass_b * t_impulse.1,
             b1.state.linear_velocity.2 + inv_mass_b * t_impulse.2) } }
      else b1
    (a2, b2)

/-- One overlapping pair of `Simulator._solve_contacts`
(simulator.py lines 636-703): Baumgarte-style positional correction,
then the velocity phase above, then re-sanitation of each movable
body.  Returns `none` when the pair `continue`s with no effect at all
(zero combined inverse mass). -/
def solveContactPair (hypotF : ℚ → ℚ → ℚ)
    (contactCorrectionPercent contactSlop maxPenetrationCorrection maxLin maxAng : ℚ)
    (a b : SimObject) (man : Manifold) : Option (SimObject × SimObject × List Warn) :=
  let inv_mass_a := if ¬ a.can_move then 0 else 1 / max a.state.mass (1 / 1000000)
  let inv_mass_b := if ¬ b.can_move then 0 else 1 / max b.state.mass (1 / 1000000)
  let inv_mass_sum := inv_mass_a + inv_mass_b
  if inv_mass_sum = 0 then none
  else
    let correction_mag := min
      (max (man.penetration - contactSlop) 0 * contactCorrectionPercent / inv_mass_sum)
      maxPenetrationCorrection
    let correction := (man.normal.1 * correction_mag, man.normal.2 * correction_mag)
    let a1 := if a.can_move then
        { a with pose := a.pose.translated (-correction.1 * inv_mass_a) (-correction.2 * inv_mass_a) }
      else a
    let b1 := if b.can_move then
        { b with pose := b.pose.translated (correction.1 * inv_mass_b) (correction.2 * inv_mass_b) }
      else b
    let (a2, b2) := contactVelocityUpdate a1 b1 man.normal inv_mass_a inv_mass_b
    let (a3, wa) := if a2.can_move then sanitize_velocity hypotF maxLin maxAng a2 else (a2, [])
    let (b3, wb) := if b2.can_move then sanitize_velocity hypotF maxLin maxAng b2 else (b2, [])
    some (a3, b3, wa ++ wb)

/-- The ordered unordered pairs visited by the double loop of
`Simulator._solve_contacts` (simulator.py lines 626-628):
`(names[i], names[j])` for `i < j`, in dict order. -/
def allPairs : List String → List (String × String)
  | [] => []
  | x :: xs => xs.map (fun y => (x, y)) ++ allPairs xs

/-- `Simulator._solve_contacts` (simulator.py lines 625-703) over the
registry: for every pair with at least one movable body, ask the
external collision oracle for a manifold of the bodies' current shapes
and poses and, if overlapping, resolve the pair. -/
def solve_contacts (hypotF : ℚ → ℚ → ℚ)
    (collide : String → Pose2D → String → Pose2D → Option Manifold)
    (contactCorrectionPercent contactSlop maxPenetrationCorrection maxLin maxAng : ℚ)
    (reg : Registry) : Registry × List Warn :=
  let step := fun (acc : Registry × List Warn) (pr : String × String) =>
    match acc.1.lookup pr.1, acc.1.lookup pr.2 with
    | some a, some b =>
        if ¬ (a.can_move ∨ b.can_move) then acc
        else
          (match collide pr.1 a.pose pr.2 b.pose with
           | none => acc
           | some man =>
              match solveContactPair hypotF contactCorrectionPercent contactSlop
                  maxPenetrationCorrection maxLin maxAng a b man with
              | none => acc
              | some (a', b', w) =>
                  (((acc.1.update pr.1 a').update pr.2 b'), acc.2 ++ w))
    | _, _ => acc
  (allPairs (reg.map Prod.fst)).foldl step (reg, [])

/-- `motors._apply_impulse` (motors.py lines 15-26): apply an impulse at
a world point, updating linear and angular velocity; a no-op for an
immovable or massless body. -/
def apply_impulse (b : SimObject) (impulse contact_point : ℚ × ℚ) : SimObject :=
  if ¬ b.can_move ∨ b.state.mass ≤ 0 then b
  else
    let inv_mass := 1 / max b.state.mass (1 / 1000000000)
    let inv_inertia := if b.state.moment_of_inertia ≤ 0 then 0
      else 1 / b.state.moment_of_inertia
    let rx := contact_point.1 - b.pose.x
    let ry := contact_point.2 - b.pose.y
    { b with state := { b.state with
        linear_velocity := (b.state.linear_velocity.1 + impulse.1 * inv_mass,
                            b.state.linear_velocity.2 + impulse.2 * inv_mass),
        angular_velocity := b.state.angular_velocity
          + (rx * impulse.2 - ry * impulse.1) * inv_inertia } }

/-- `motors._contact_velocity` (motors.py lines 29-35): velocity of a
world-space contact point on the body. -/
def contact_velocity (b : SimObject) (contact_point : ℚ × ℚ) : ℚ × ℚ :=
  let rx := contact_point.1 - b.pose.x
  let ry := contact_point.2 - b.pose.y
  (b.state.linear_velocity.1 - b.state.angular_velocity * ry,
   b.state.linear_velocity.2 + b.state.angular_velocity * rx)

/-- `motors._inv_mass_term` (motors.py lines 38-45): effective inverse
mass along an axis at a contact point of a 2D rigid body. -/
def inv_mass_term (b : SimObject) (contact_point axis : ℚ × ℚ) : ℚ :=
  let inv_mass := if ¬ b.can_move ∨ b.state.mass ≤ 0 then 0 else 1 / b.state.mass
  let inv_inertia := if b.state.moment_of_inertia ≤ 0 then 0
    else 1 / b.state.moment_of_inertia
  let rx := contact_point.1 - b.pose.x
  let ry := contact_point.2 - b.pose.y
  let r_cross_n := rx * axis.2 - ry * axis.1
  inv_mass + r_cross_n * r_cross_n * inv_inertia

/-- `motors._solve_wheel_traction` (motors.py lines 48-85): apply the
friction-capped longitudinal drive impulse and the damped, capped
lateral slip-correction impulse; returns the updated body and the
applied longitudinal impulse `j_drive` (the Python return value). -/
def solve_wheel_traction (b : SimObject) (contact_point forward : ℚ × ℚ)
    (drive_impulse mu_long mu_lat normal_load lateral_damping dt : ℚ) :
    SimObject × ℚ :=
  if ¬ b.can_move then (b, 0)
  else
    let normal_load' := max normal_load 0
    let lateral_damping' := clampQ lateral_damping 0 1
    let lateral : ℚ × ℚ := (-forward.2, forward.1)
    let max_long_impulse := |mu_long| * normal_load' * dt
    let max_lat_impulse := |mu_lat| * normal_load' * dt
    let j_drive := if max_long_impulse > 0 then
        clampQ drive_impulse (-max_long_impulse) max_long_impulse
      else 0
    let b1 := if j_drive ≠ 0 then
        apply_impulse b (forward.1 * j_drive, forward.2 * j_drive) contact_point
      else b
    let b2 := if max_lat_impulse > 0 then
        let vc := contact_velocity b1 contact_point
        let v_lat := vc.1 * lateral.1 + vc.2 * lateral.2
        if |v_lat| > 1 / 100000 then
          let imt := inv_mass_term b1 contact_point lateral
          if imt > 1 / 1000000000 then
            let j_lat := clampQ (-v_lat / imt * (1 - lateral_damping'))
              (-max_lat_impulse) max_lat_impulse
            apply_impulse b1 (lateral.1 * j_lat, lateral.2 * j_lat) contact_point
          else b1
        else b1
      else b1
    (b2, j_drive)

/-- The traction parameters of `motors.WheelMotor` (motors.py lines
91-113) that `_apply` reads. -/
structure WheelMotorData where
  mount_pose : Pose2D
  max_force : ℚ := 2
  mu_long : ℚ := 9 / 10
  mu_lat : ℚ := 8 / 10
  g_equiv : ℚ := 981 / 100
  normal_force : Option ℚ := none
  lateral_damping : ℚ := 1 / 4
  wheel_count : ℕ := 2
  wheel_radius : ℚ := 3 / 100
  deriving Repr, DecidableEq

/-- `motors.WheelMotor._apply` (motors.py lines 115-134): a no-op when
the motor is unattached (`parent = none`) or its parent cannot move;
otherwise compute the contact pose by composing the parent pose with the
mount pose, derive the per-wheel normal load (explicit override or
`mass * g_equiv / wheel_count`), the drive impulse
`max_force * value * dt`, and run the traction solve.  Returns the
updated parent (`none` stays `none`: nothing was touched). -/
def wheelMotorApply (trig : ℚ → ℚ × ℚ) (m : WheelMotorData)
    (parent : Option SimObject) (value dt : ℚ) : Option SimObject :=
  match parent with
  | none => none
  | some p =>
      if ¬ p.can_move then some p
      else
        let pose := composePose trig p.pose m.mount_pose
        let direction := trig pose.theta
        let normal_load := match m.normal_force with
          | some f => f
          | none => p.state.mass * m.g_equiv / (max m.wheel_count 1 : ℕ)
        let drive_impulse := m.max_force * value * dt
        some (solve_wheel_traction p (pose.x, pose.y) direction drive_impulse
          m.mu_long m.mu_lat normal_load m.lateral_damping dt).1

/-- `core.config.MaterialConfig` (config.py lines 14-23), restricted to
the fields the embedded pipeline reads.  The dataclass has no `traction`
attribute, so `getattr(cfg, "traction", None)` in the simulator always
yields `None`. -/
structure MaterialConfig where
  friction : ℚ := 4 / 5
  restitution : ℚ := 1 / 10
  deriving Repr, DecidableEq

/-- `core.config.BodyConfig` (config.py lines 26-35); the collision
polygon is opaque to the core and omitted. -/
structure BodyConfig where
  name : String
  pose : ℚ × ℚ × ℚ := (0, 0, 0)
  can_move : Bool := true
  mass : ℚ := 1
  inertia : ℚ := 1
  material : MaterialConfig := {}
  deriving Repr, DecidableEq

/-- The truthiness of `params.get("detailed")` in an actuator's `params`
dict (simulator.py line 199); the remaining params only tune numeric
values and never change which code path is taken. -/
structure ActuatorParams where
  detailed : Bool := false
  deriving Repr, DecidableEq

/-- `core.config.ActuatorConfig` (config.py lines 52-58). -/
structure ActuatorConfig where
  name : String
  type : String := "motor"
  body : String
  mount_pose : ℚ × ℚ × ℚ := (0, 0, 0)
  params : ActuatorParams := {}
  deriving Repr, DecidableEq

/-- `core.config.SensorConfig` (config.py lines 61-67). -/
structure SensorConfig where
  name : String
  type : String
  body : String
  mount_pose : ℚ × ℚ × ℚ := (0, 0, 0)
  deriving Repr, DecidableEq

/-- `core.config.RobotConfig` (config.py lines 78-86). -/
structure RobotConfig where
  spawn_pose : ℚ × ℚ × ℚ := (0, 0, 0)
  bodies : List BodyConfig := []
  joints : List JointConfig := []
  actuators : List ActuatorConfig := []
  sensors : List SensorConfig := []
  controller_module : String := "controller"
  deriving Repr, DecidableEq

/-- `core.config.WorldObjectConfig` (config.py lines 89-92). -/
structure WorldObjectConfig where
  name : String
  body : BodyConfig
  deriving Repr, DecidableEq

/-- `core.config.WorldConfig` (config.py lines 95-102).  The dataclass
has no `drawings`, `bounds`, `shape_objects` or `custom_objects`
attributes, so `Simulator._inject_environment` (simulator.py lines
280-304), whose every access goes through `getattr(..., default)`,
injects nothing for it. -/
structure WorldConfig where
  name : String := "world"
  gravity : ℚ × ℚ := (0, 0)
  timestep : ℚ := 1 / 120
  terrain : List WorldObjectConfig := []
  deriving Repr, DecidableEq

/-- The mutable simulator state (`Simulator.__init__`, simulator.py
lines 81-114) restricted to what the step pipeline, snapshotting,
loading and repositioning read and write.  Motors are kept as
`(name, last_command)` pairs (the step only reads `last_command`). -/
structure SimState where
  dt : ℚ := 1 / 120
  gravity : ℚ × ℚ := (0, -981 / 100)
  time : ℚ := 0
  stepIndex : ℕ := 0
  bodies : Registry := []
  joints : List JointRuntime := []
  sensors : List String := []
  motors : List (String × ℚ) := []
  lastCtrlErr : Option String := none
  lastSensorReadings : List (String × ℚ) := []
  lastMotorCommands : List (String × ℚ) := []
  lastWarning : Option Warn := none
  linearDamping : ℚ := 199 / 200
  angularDamping : ℚ := 199 / 200
  maxLinearSpeed : ℚ := 15
  maxAngularSpeed : ℚ := 40
  contactCorrectionPercent : ℚ := 1 / 4
  contactSlop : ℚ := 1 / 500
  maxPenetrationCorrection : ℚ := 1 / 20
  maxStepTranslation : ℚ := 1 / 2
  traceEnabled : Bool := false
  traceCount : ℕ := 0
  robotCfg : Option RobotConfig := none

/-- `Simulator._make_body` (simulator.py lines 164-183): build a body at
the config pose offset by the optional spawn pose; the material is
converted by `_material_from_config` (of which the contact solver reads
friction and restitution); the dynamic state starts at rest. -/
def make_body (cfg : BodyConfig) (spawn : Option (ℚ × ℚ × ℚ)) : SimObject :=
  let off := spawn.getD (0, 0, 0)
  { name := cfg.name,
    pose := { x := cfg.pose.1 + off.1, y := cfg.pose.2.1 + off.2.1,
              theta := cfg.pose.2.2 + off.2.2 },
    material := { friction := cfg.material.friction,
                  restitution := cfg.material.restitution },
    can_move := cfg.can_move,
    state := { mass := cfg.mass, moment_of_inertia := cfg.inertia,
               linear_velocity := (0, 0), angular_velocity := 0,
               force_accum := (0, 0) } }

/-- The keyword parameter names `motors.WheelMotor.__init__` declares
(motors.py lines 91-104). -/
def wheelMotorInitKwargs : List String :=
  ["mount_pose", "max_force", "mu_long", "mu_lat", "g_equiv",
   "normal_force", "lateral_damping", "wheel_count", "wheel_radius"]

/-- The keyword argument names `Simulator._attach_actuator` passes to
the `WheelMotor(...)` call (simulator.py lines 210-223); every one of
them is passed on every call (conditionals there only choose argument
values, never argument names). -/
def simulatorWheelMotorCallKwargs : List String :=
  ["mount_pose", "max_force", "mu_long", "mu_lat", "g_equiv",
   "normal_force", "lateral_damping", "wheel_count", "wheel_radius",
   "response_time", "max_wheel_omega"]

/-- Python call semantics for keyword arguments: a call raises
`TypeError` as soon as a passed keyword is not among the callee's
declared parameters. -/
def pythonKwargCheck (accepted passed : List String) : Except PyErr Unit :=
  if passed.all (fun k => accepted.contains k) then Except.ok ()
  else Except.error (PyErr.typeError "unexpected keyword argument")

/-- `Simulator._attach_actuator` (simulator.py lines 185-225): raise
`ValueError` when the parent body is missing from the registry;
otherwise construct the motor — a `WheelMotorDetailed` for truthy
`params["detailed"]` (its call passes only `preset` and `mount_pose`,
both declared, so it succeeds), else a `WheelMotor`, whose call site
passes the keywords `response_time` and `max_wheel_omega` that
`WheelMotor.__init__` does not declare. -/
def attach_actuator (s : SimState) (cfg : ActuatorConfig) : Except PyErr SimState :=
  match s.bodies.lookup cfg.body with
  | none => Except.error (PyErr.valueError "Actuator parent body not found")
  | some _ =>
      if cfg.params.detailed then
        Except.ok { s with motors := s.motors ++ [(cfg.name, 0)] }
      else
        match pythonKwargCheck wheelMotorInitKwargs simulatorWheelMotorCallKwargs with
        | Except.error e => Except.error e
        | Except.ok _ => Except.ok { s with motors := s.motors ++ [(cfg.name, 0)] }

/-- The sensor type tags `Simulator._attach_sensor` accepts
(simulator.py lines 233-244). -/
def supportedSensorTypes : List String :=
  ["distance", "line", "line_array", "imu", "encoder"]

/-- `Simulator._attach_sensor` (simulator.py lines 227-246): raise
`ValueError` when the parent body is missing, or when the sensor type
tag is unsupported; otherwise register the sensor. -/
def attach_sensor (s : SimState) (cfg : SensorConfig) : Except PyErr SimState :=
  match s.bodies.lookup cfg.body with
  | none => Except.error (PyErr.valueError "Sensor parent body not found")
  | some _ =>
      if supportedSensorTypes.contains cfg.type then
        Except.ok { s with sensors := s.sensors ++ [cfg.name] }
      else Except.error (PyErr.valueError "Unsupported sensor type")

/-- `Simulator.load` (simulator.py lines 117-162): reset time, step and
registries; build terrain bodies (forced immovable, keyed by the world
object name) unless terrain is ignored; environment injection
contributes nothing (see `WorldConfig`); build robot bodies offset by
the spawn pose; append the joints with no existence check on their
parent/child names; then attach actuators and sensors, either of which
can raise.  `_load_controller` (lines 248-277) catches every exception
and only writes `last_controller_error`, so it never fails the load;
its outcome is environment-dependent and left as `none` here. -/
def loadModel (world : WorldConfig) (robot : RobotConfig)
    (topDown ignoreTerrain : Bool) : Except PyErr SimState :=
  let base : SimState :=
    { dt := world.timestep,
      gravity := if topDown then (0, 0) else world.gravity,
      time := 0, stepIndex := 0,
      bodies := [], joints := [], sensors := [], motors := [],
      lastCtrlErr := none, lastSensorReadings := [], lastMotorCommands := [],
      robotCfg := some robot }
  let withTerrain : SimState :=
    if ignoreTerrain then base
    else { base with bodies := world.terrain.map (fun obj =>
        (obj.name, { make_body obj.body none with can_move := false })) }
  let withRobot : SimState :=
    { withTerrain with bodies := withTerrain.bodies ++ robot.bodies.map (fun bc =>
        (bc.name, make_body bc (some robot.spawn_pose))) }
  let withJoints : SimState :=
    { withRobot with joints := robot.joints.map (fun jc => { cfg := jc }) }
  match robot.actuators.foldlM attach_actuator withJoints with
  | Except.error e => Except.error e
  | Except.ok s1 =>
      match robot.sensors.foldlM attach_sensor s1 with
      | Except.error e => Except.error e
      | Except.ok s2 => Except.ok s2

/-- Ghost instrumentation for ordering and invocation claims: one tag
per top-level phase of `Simulator.step` (simulator.py lines 410-431),
plus `ctrlInvoked`, emitted exactly when the controller hook is actually
called inside `_tick_controller`. -/
inductive Ev where
  | recordPrevPoses
  | readSensors
  | tickController
  | ctrlInvoked
  | integratePhase
  | solveJointsPhase
  | solveContactsPhase
  | sanityCheckPhase
  | recordTracePhase
  | advanceTime
  deriving Repr, DecidableEq

/-- The external controller hook (`step`/`update` on the controller
instance, spec §6): given the sensor-reading map and dt it either
returns or raises, the raised traceback being modelled by the error
string.  `none` models a missing controller instance or hook. -/
abbrev CtrlFn := List (String × ℚ) → ℚ → Except String Unit

/-- `Simulator._update_sensors` (simulator.py lines 458-464): read
every sensor against the current state through the external read oracle,
keeping truthy readings. -/
def readingsOf (sensorRead : String → ℚ → Option ℚ) (sensors : List String)
    (dt : ℚ) : List (String × ℚ) :=
  sensors.filterMap (fun n => (sensorRead n dt).map (fun v => (n, v)))

/-- `Simulator._tick_controller` (simulator.py lines 466-478): no-op
without a controller hook; skipped while `last_controller_error` is
set; otherwise invoke the hook, capturing a raised exception into
`last_controller_error` instead of re-raising.  Returns the new error
field and the invocation event (ghost). -/
def tick_controller (ctrl : Option CtrlFn) (readings : List (String × ℚ))
    (dt : ℚ) (lastErr : Option String) : Option String × List Ev :=
  match ctrl with
  | none => (lastErr, [])
  | some f =>
      if lastErr.isSome then (lastErr, [])
      else
        match f readings dt with
        | Except.ok _ => (lastErr, [Ev.ctrlInvoked])
        | Except.error e => (some e, [Ev.ctrlInvoked])

/-- `Simulator.step` (simulator.py lines 410-431): resolve dt, clear
the last physics warning, record pre-step poses, read sensors against
the pre-step state, tick the controller, integrate, solve joints,
resolve contacts, run the step-displacement sanity check against the
pre-step poses, refresh `last_motor_commands`, optionally record a
trace entry, then advance time and the step counter.  Ghost events are
emitted per phase; the function is total — no exception ever leaves
`step`. -/
def stepModel (hypotF : ℚ → ℚ → ℚ) (trig : ℚ → ℚ × ℚ)
    (collide : String → Pose2D → String → Pose2D → Option Manifold)
    (sensorRead : String → ℚ → Option ℚ) (ctrl : Option CtrlFn)
    (s : SimState) (dtOpt : Option ℚ) : SimState × List Ev :=
  let dt := dtOpt.getD s.dt
  let prevPoses := s.bodies.map (fun p => (p.1, p.2.pose))
  let readings := readingsOf sensorRead s.sensors dt
  let (err', evc) := tick_controller ctrl readings dt s.lastCtrlErr
  let (reg3, w3) := integrate_bodies hypotF s.gravity s.linearDamping
    s.angularDamping s.maxLinearSpeed s.maxAngularSpeed dt s.bodies
  let (joints4, reg4) := solve_joints hypotF trig dt s.maxPenetrationCorrection
    s.joints reg3
  let (reg5, w5) := solve_contacts hypotF collide s.contactCorrectionPercent
    s.contactSlop s.maxPenetrationCorrection s.maxLinearSpeed s.maxAngularSpeed reg4
  let (reg6, w6) := check_step_sanity hypotF s.maxStepTranslation dt prevPoses reg5
  let (traceCount', evTrace) :=
    if s.traceEnabled then (s.traceCount + 1, [Ev.recordTracePhase])
    else (s.traceCount, ([] : List Ev))
  ({ s with
      bodies := reg6, joints := joints4,
      lastSensorReadings := readings,
      lastCtrlErr := err',
      lastWarning := applyWarnings none (w3 ++ w5 ++ w6),
      lastMotorCommands := s.motors,
      traceCount := traceCount',
      time := s.time + dt,
      stepIndex := s.stepIndex + 1 },
   [Ev.recordPrevPoses, Ev.readSensors, Ev.tickController] ++ evc ++
     [Ev.integratePhase, Ev.solveJointsPhase, Ev.solveContactsPhase,
      Ev.sanityCheckPhase] ++ evTrace ++ [Ev.advanceTime])

/-- `Simulator.clear_controller_error` (simulator.py lines 750-751). -/
def clear_controller_error (s : SimState) : SimState :=
  { s with lastCtrlErr := none }

/-- One body's entry in a snapshot (`Simulator.snapshot`, the
pose/velocity capture of simulator.py lines 708-713). -/
structure BodySnap where
  pose : Pose2D
  lin_vel : ℚ × ℚ
  ang_vel : ℚ
  deriving Repr, DecidableEq

/-- `core.config.SnapshotState` (config.py lines 105-110) restricted to
the fields `apply_snapshot` reads; the opaque controller-state blob is
external and omitted (capture and restore of it swallow all errors). -/
structure SnapshotState where
  time : ℚ
  step : ℕ
  bodies : List (String × BodySnap)
  deriving Repr, DecidableEq

/-- `Simulator.snapshot` (simulator.py lines 706-725): capture time,
step index and every body's pose and velocities by value. -/
def snapshot (s : SimState) : SnapshotState :=
  { time := s.time, step := s.stepIndex,
    bodies := s.bodies.map (fun p =>
      (p.1, { pose := p.2.pose,
              lin_vel := p.2.state.linear_velocity,
              ang_vel := p.2.state.angular_velocity })) }

/-- `Simulator.apply_snapshot` (simulator.py lines 727-742): restore
time and step index; for each body name present in both the snapshot
and the live registry overwrite pose and velocities; snapshot entries
whose name is absent from the live registry are silently skipped. -/
def apply_snapshot (snap : SnapshotState) (s : SimState) : SimState :=
  { s with
      time := snap.time,
      stepIndex := snap.step,
      bodies := s.bodies.map (fun p =>
        match snap.bodies.lookup p.1 with
        | some e => (p.1, { p.2 with
            pose := e.pose,
            state := { p.2.state with
              linear_velocity := e.lin_vel,
              angular_velocity := e.ang_vel } })
        | none => p) }

/-- `Simulator.reposition_robot` (simulator.py lines 754-775): a no-op
without a loaded robot config; otherwise move every configured robot
body to its config pose offset by the new spawn pose, optionally zero
its velocities and clear its impulses, optionally persist the spawn
pose, and unconditionally reset every joint's accumulated multiplier to
zero. -/
def reposition_robot (s : SimState) (spawn : ℚ × ℚ × ℚ)
    (zero_velocity : Bool := true) (set_as_spawn : Bool := false) : SimState :=
  match s.robotCfg with
  | none => s
  | some rc =>
      let reg' := rc.bodies.foldl (fun reg bc =>
        match reg.lookup bc.name with
        | none => reg
        | some body =>
            let body1 := { body with pose :=
              { x := bc.pose.1 + spawn.1, y := bc.pose.2.1 + spawn.2.1,
                theta := bc.pose.2.2 + spawn.2.2 } }
            let body2 := if zero_velocity then
                { body1 with state := { body1.state with
                    linear_velocity := (0, 0), angular_velocity := 0,
                    force_accum := (0, 0) } }
              else body1
            reg.update bc.name body2) s.bodies
      let rc' := if set_as_spawn then { rc with spawn_pose := spawn } else rc
      { s with
        bodies := reg',
        robotCfg := some rc',
        joints := s.joints.map (fun jr => { jr with lambda_accum := 0 }) }

/-! ## Claim C1: joint target separation and correction direction -/

/-- C1 (counterexample): the claim says the target anchor separation is
zero when `lower_limit = upper_limit` — but for a joint with
`lower_limit = upper_limit = 2` the code (simulator.py line 604) uses
target `2`, not `0`; consequently the solver skips a joint whose anchors
are exactly `2` apart (`error = 0`), although the claimed target `0`
would demand a correction. -/
theorem C1_counterexample :
    jointTargetSep 2 2 = 2 ∧ jointTargetSep 2 2 ≠ 0 ∧
    solveJointCore 1 (1 / 20)
      { cfg := { name := "j", parent := "a", child := "b",
                 anchor_parent := (0, 0), anchor_child := (0, 0),
                 lower_limit := 2, upper_limit := 2 } }
      true true 1 1 (0, 0) (2, 0) 2 = none := by
  refine ⟨by norm_num [jointTargetSep], by norm_num [jointTargetSep], ?_⟩
  norm_num [solveJointCore, jointTargetSep]

/-- C1 (amended): for every joint the solver processes, the target
anchor separation equals `upper_limit` when `lower_limit = upper_limit`
and zero otherwise; whenever the anchor separation differs from that
target by more than the epsilon, the clamped positional correction
translates each movable body's anchor toward the other anchor when the
separation exceeds the target, and away from it when the separation is
below the target (the clamped step may overshoot the target). -/
theorem C1_joint_target_and_correction (dt maxPen : ℚ) (jr : JointRuntime)
    (pm cm : Bool) (ma mb : ℚ) (pa pb : ℚ × ℚ) (dist : ℚ)
    (hcomp : 0 ≤ jr.compliance) (hpen : 0 < maxPen) (hdist : 0 ≤ dist)
    (hmove : pm = true ∨ cm = true)
    (herr : 1 / 100000 ≤ |dist - jointTargetSep jr.cfg.lower_limit jr.cfg.upper_limit|) :
    jointTargetSep jr.cfg.lower_limit jr.cfg.upper_limit =
      (if jr.cfg.lower_limit = jr.cfg.upper_limit then jr.cfg.upper_limit else 0) ∧
    ∃ dl pd cd, solveJointCore dt maxPen jr pm cm ma mb pa pb dist = some (dl, pd, cd) ∧
      (jointTargetSep jr.cfg.lower_limit jr.cfg.upper_limit < dist →
        ∃ c c' : ℚ, 0 ≤ c ∧ 0 ≤ c' ∧
          pd = (c * (pb.1 - pa.1), c * (pb.2 - pa.2)) ∧
          cd = (-(c' * (pb.1 - pa.1)), -(c' * (pb.2 - pa.2))) ∧
          (pm = true → 0 < c) ∧ (cm = true → 0 < c')) ∧
      (dist < jointTargetSep jr.cfg.lower_limit jr.cfg.upper_limit →
        ∃ c c' : ℚ, 0 ≤ c ∧ 0 ≤ c' ∧
          pd = (-(c * (pb.1 - pa.1)), -(c * (pb.2 - pa.2))) ∧
          cd = (c' * (pb.1 - pa.1), c' * (pb.2 - pa.2)) ∧
          (pm = true → 0 < c) ∧ (cm = true → 0 < c')) := by
  refine ⟨rfl, ?_⟩
  have hnotboth : ¬ (¬ pm = true ∧ ¬ cm = true) := by
    rcases hmove with h | h <;> simp [h]
  have hepsle : ¬ (|dist - jointTargetSep jr.cfg.lower_limit jr.cfg.upper_limit|
      < 1 / 100000) := not_lt.mpr herr
  simp only [solveJointCore]
  set ia : ℚ := if ¬ pm = true then 0 else 1 / max ma (1 / 1000000) with hia
  set ib : ℚ := if ¬ cm = true then 0 else 1 / max mb (1 / 1000000) with hib
  have hia_nonneg : 0 ≤ ia := by
    rw [hia]; split
    · exact le_refl 0
    · positivity
  have hib_nonneg : 0 ≤ ib := by
    rw [hib]; split
    · exact le_refl 0
    · positivity
  have hpos_of_move_a : pm = true → 0 < ia := by
    intro h; rw [hia, if_neg (by simp [h])]; positivity
  have hpos_of_move_b : cm = true → 0 < ib := by
    intro h; rw [hib, if_neg (by simp [h])]; positivity
  have hw : 0 < ia + ib := by
    rcases hmove with h | h
    · exact add_pos_of_pos_of_nonneg (hpos_of_move_a h) hib_nonneg
    · exact add_pos_of_nonneg_of_pos hia_nonneg (hpos_of_move_b h)
  have hwne : ¬ (ia + ib = 0) := ne_of_gt hw
  rw [if_neg hnotboth, if_neg hepsle, if_neg hwne]
  set target := jointTargetSep jr.cfg.lower_limit jr.cfg.upper_limit with htarget
  have halpha : 0 < 1 / (jr.compliance + 1 / 1000000000) := by
    have : (0 : ℚ) < jr.compliance + 1 / 1000000000 := by linarith
    positivity
  set alpha : ℚ := 1 / (jr.compliance + 1 / 1000000000) with hal
  have hden : 0 < ia + ib + alpha * dt * dt := by
    have h2 : 0 ≤ dt * dt := mul_self_nonneg dt
    nlinarith
  set dlambda : ℚ := -(dist - target) * alpha / (ia + ib + alpha * dt * dt) with hdl
  set correction : ℚ := max (-maxPen) (min maxPen dlambda) with hcorr
  have hdpos : 0 < dist + 1 / 1000000 := by linarith
  refine ⟨dlambda, _, _, rfl, ?_, ?_⟩
  · -- separation above target: corrections pull the anchors together
    intro hgt
    have herrpos : 0 < dist - target := by linarith
    have hdlneg : dlambda < 0 := by
      rw [hdl]
      apply div_neg_of_neg_of_pos _ hden
      nlinarith
    have hcorrneg : correction < 0 := by
      rw [hcorr]
      apply max_lt (by linarith) (lt_of_le_of_lt (min_le_right _ _) hdlneg)
    refine ⟨-correction * ia / (dist + 1 / 1000000),
            -correction * ib / (dist + 1 / 1000000), ?_, ?_, ?_, ?_, ?_, ?_⟩
    · apply div_nonneg _ (le_of_lt hdpos)
      exact mul_nonneg (by linarith) hia_nonneg
    · apply div_nonneg _ (le_of_lt hdpos)
      exact mul_nonneg (by linarith) hib_nonneg
    · by_cases hpm : pm = true
      · rw [if_pos hpm]
        refine Prod.ext ?_ ?_ <;> simp <;> ring
      · rw [if_neg hpm, hia, if_pos (by simp [hpm])]
        refine Prod.ext ?_ ?_ <;> simp <;> ring
    · by_cases hcm : cm = true
      · rw [if_pos hcm]
        refine Prod.ext ?_ ?_ <;> simp <;> ring
      · rw [if_neg hcm, hib, if_pos (by simp [hcm])]
        refine Prod.ext ?_ ?_ <;> simp <;> ring
    · intro h
      have := hpos_of_move_a h
      apply div_pos _ hdpos
      exact mul_pos (by linarith) this
    · intro h
      have := hpos_of_move_b h
      apply div_pos _ hdpos
      exact mul_pos (by linarith) this
  · -- separation below target: corrections push the anchors apart
    intro hlt
    have herrneg : dist - target < 0 := by linarith
    have hdlpos : 0 < dlambda := by
      rw [hdl]
      apply div_pos _ hden
      nlinarith
    have hcorrpos : 0 < correction := by
      rw [hcorr]
      apply lt_max_of_lt_right
      exact lt_min hpen hdlpos
    refine ⟨correction * ia / (dist + 1 / 1000000),
            correction * ib / (dist + 1 / 1000000), ?_, ?_, ?_, ?_, ?_, ?_⟩
    · apply div_nonneg _ (le_of_lt hdpos)
      exact mul_nonneg (le_of_lt hcorrpos) hia_nonneg
    · apply div_nonneg _ (le_of_lt hdpos)
      exact mul_nonneg (le_of_lt hcorrpos) hib_nonneg
    · by_cases hpm : pm = true
      · rw [if_pos hpm]
        refine Prod.ext ?_ ?_ <;> simp <;> ring
      · rw [if_neg hpm, hia, if_pos (by simp [hpm])]
        refine Prod.ext ?_ ?_ <;> simp <;> ring
    · by_cases hcm : cm = true
      · rw [if_pos hcm]
        refine Prod.ext ?_ ?_ <;> simp <;> ring
      · rw [if_neg hcm, hib, if_pos (by simp [hcm])]
        refine Prod.ext ?_ ?_ <;> simp <;> ring
    · intro h
      have := hpos_of_move_a h
      apply div_pos _ hdpos
      exact mul_pos hcorrpos this
    · intro h
      have := hpos_of_move_b h
      apply div_pos _ hdpos
      exact mul_pos hcorrpos this

/-- C1 (witness): the amended theorem applied to a concrete joint with
`lower_limit = 0 ≠ 1 = upper_limit` (target `0`), both bodies movable
with unit mass, anchors `3` apart. -/
theorem C1_witness :
    jointTargetSep 0 1 = 0 ∧
    (∃ dl pd cd,
      solveJointCore 1 (1 / 20)
        { cfg := { name := "j", parent := "a", child := "b",
                   anchor_parent := (0, 0), anchor_child := (0, 0),
                   lower_limit := 0, upper_limit := 1 } }
        true true 1 1 (0, 0) (3, 0) 3 = some (dl, pd, cd) ∧
      (jointTargetSep 0 1 < 3 →
        ∃ c c' : ℚ, 0 ≤ c ∧ 0 ≤ c' ∧
          pd = (c * ((3:ℚ) - 0), c * ((0:ℚ) - 0)) ∧
          cd = (-(c' * ((3:ℚ) - 0)), -(c' * ((0:ℚ) - 0))) ∧
          (true = true → 0 < c) ∧ (true = true → 0 < c'))) := by
  have h := C1_joint_target_and_correction 1 (1 / 20)
    { cfg := { name := "j", parent := "a", child := "b",
               anchor_parent := (0, 0), anchor_child := (0, 0),
               lower_limit := 0, upper_limit := 1 } }
    true true 1 1 (0, 0) (3, 0) 3
    (by norm_num) (by norm_num) (by norm_num) (Or.inl rfl)
    (by norm_num [jointTargetSep])
  obtain ⟨_, dl, pd, cd, hsome, himp, _⟩ := h
  exact ⟨by norm_num [jointTargetSep], dl, pd, cd, hsome, himp⟩

/-! ## Claims C2/C3: scenario loading and device attachment -/

/-- The names present in the body registry once `Simulator.load` starts
attaching devices: terrain object names (unless terrain is ignored)
followed by robot body names. -/
def loadRegistryNames (world : WorldConfig) (robot : RobotConfig)
    (ignoreTerrain : Bool) : List String :=
  (if ignoreTerrain then [] else world.terrain.map WorldObjectConfig.name)
    ++ robot.bodies.map BodyConfig.name

lemma lookup_eq_none_of_not_mem {β : Type} (l : List (String × β)) (k : String)
    (h : k ∉ l.map Prod.fst) : l.lookup k = none := by
  induction l with
  | nil => rfl
  | cons p l ih =>
      simp only [List.map_cons, List.mem_cons, not_or] at h
      rw [List.lookup_cons]
      have : (k == p.1) = false := beq_eq_false_iff_ne.mpr h.1
      rw [this]
      exact ih h.2

lemma foldlM_bodies_eq {γ : Type} (f : SimState → γ → Except PyErr SimState)
    (hpres : ∀ s c s', f s c = Except.ok s' → s'.bodies = s.bodies) :
    ∀ (l : List γ) (s s'), l.foldlM f s = Except.ok s' → s'.bodies = s.bodies := by
  intro l
  induction l with
  | nil =>
      intro s s' h
      have h' : Except.ok s = Except.ok s' := h
      cases h'
      rfl
  | cons c l ih =>
      intro s s' h
      cases hc : f s c with
      | error e =>
          have h' : (Except.error e : Except PyErr SimState) = Except.ok s' := by
            rw [List.foldlM_cons, hc] at h
            exact h
          cases h'
      | ok s1 =>
          have h' : l.foldlM f s1 = Except.ok s' := by
            rw [List.foldlM_cons, hc] at h
            exact h
          rw [ih s1 s' h']
          exact hpres s c s1 hc

lemma foldlM_fails {γ : Type} (f : SimState → γ → Except PyErr SimState)
    (hpres : ∀ s c s', f s c = Except.ok s' → s'.bodies = s.bodies) :
    ∀ (l : List γ) (s : SimState) (c : γ), c ∈ l →
      (∀ t : SimState, t.bodies = s.bodies → ∃ e, f t c = Except.error e) →
      ∃ e, l.foldlM f s = Except.error e := by
  intro l
  induction l with
  | nil => intro s c hc; exact absurd hc (List.not_mem_nil c)
  | cons b bs ih =>
      intro s c hc hfail
      rcases List.mem_cons.mp hc with heq | hmem
      · subst heq
        obtain ⟨e, he⟩ := hfail s rfl
        refine ⟨e, ?_⟩
        rw [List.foldlM_cons, he]
        rfl
      · cases hb : f s b with
        | error e =>
            refine ⟨e, ?_⟩
            rw [List.foldlM_cons, hb]
            rfl
        | ok s1 =>
            have hbodies := hpres s b s1 hb
            obtain ⟨e, he⟩ := ih s1 c hmem (fun t ht => hfail t (ht.trans hbodies))
            refine ⟨e, ?_⟩
            rw [List.foldlM_cons, hb]
            exact he

lemma attach_actuator_bodies (s : SimState) (c : ActuatorConfig) (s' : SimState)
    (h : attach_actuator s c = Except.ok s') : s'.bodies = s.bodies := by
  unfold attach_actuator at h
  cases hl : s.bodies.lookup c.body with
  | none => rw [hl] at h; simp at h
  | some p =>
      rw [hl] at h
      by_cases hd : c.params.detailed = true
      · rw [if_pos hd] at h
        cases h; rfl
      · rw [if_neg hd] at h
        cases hk : pythonKwargCheck wheelMotorInitKwargs simulatorWheelMotorCallKwargs with
        | error e => rw [hk] at h; simp at h
        | ok u => rw [hk] at h; cases h; rfl

lemma attach_sensor_bodies (s : SimState) (c : SensorConfig) (s' : SimState)
    (h : attach_sensor s c = Except.ok s') : s'.bodies = s.bodies := by
  unfold attach_sensor at h
  cases hl : s.bodies.lookup c.body with
  | none => rw [hl] at h; simp at h
  | some p =>
      rw [hl] at h
      by_cases ht : supportedSensorTypes.contains c.type = true
      · rw [if_pos ht] at h; cases h; rfl
      · rw [if_neg ht] at h; simp at h

lemma loadModel_pre_device_bodies (world : WorldConfig) (robot : RobotConfig)
    (topDown ignoreTerrain : Bool) :
    ∃ s0 : SimState,
      (s0.bodies.map Prod.fst = loadRegistryNames world robot ignoreTerrain) ∧
      loadModel world robot topDown ignoreTerrain =
        (match robot.actuators.foldlM attach_actuator s0 with
         | Except.error e => Except.error e
         | Except.ok s1 =>
            match robot.sensors.foldlM attach_sensor s1 with
            | Except.error e => Except.error e
            | Except.ok s2 => Except.ok s2) := by
  unfold loadModel
  refine ⟨_, ?_, rfl⟩
  unfold loadRegistryNames
  by_cases hig : ignoreTerrain = true
  · simp [hig, List.map_map, Function.comp_def]
  · simp only [Bool.not_eq_true] at hig
    simp [hig, List.map_map, Function.comp_def]

/-- C2 (counterexample): a scenario whose only joint references the
body name `"ghost"`, absent from the registry, loads successfully —
no error is raised for joints, contradicting the claim. -/
theorem C2_counterexample :
    (match
      loadModel { }
        { bodies := [{ name := "base" }],
          joints := [{ name := "j", parent := "base", child := "ghost",
                       anchor_parent := (0, 0), anchor_child := (0, 0),
                       lower_limit := 0, upper_limit := 0 }] }
        true false with
     | Except.ok _ => true
     | Except.error _ => false) = true := rfl

/-- C2 (amended): a motor or sensor referencing a body name absent from
the registry makes the load raise an error immediately (the model's
`Except` aborts the whole load, before any step); a joint referencing an
absent body is, however, not validated at load time — the joint solver
silently skips it each tick, leaving the joint and the registry
unchanged. -/
theorem C2_missing_body_errors (world : WorldConfig) (robot : RobotConfig)
    (topDown ignoreTerrain : Bool) :
    ((∃ a ∈ robot.actuators,
        a.body ∉ loadRegistryNames world robot ignoreTerrain) →
      ∃ e, loadModel world robot topDown ignoreTerrain = Except.error e) ∧
    ((∃ sc ∈ robot.sensors,
        sc.body ∉ loadRegistryNames world robot ignoreTerrain) →
      ∃ e, loadModel world robot topDown ignoreTerrain = Except.error e) ∧
    (∀ (hypotF : ℚ → ℚ → ℚ) (trig : ℚ → ℚ × ℚ) (dt mpc : ℚ)
        (jr : JointRuntime) (reg : Registry),
      (reg.lookup jr.cfg.parent = none ∨ reg.lookup jr.cfg.child = none) →
      solve_joints hypotF trig dt mpc [jr] reg = ([jr], reg)) := by
  obtain ⟨s0, hnames, hload⟩ :=
    loadModel_pre_device_bodies world robot topDown ignoreTerrain
  refine ⟨?_, ?_, ?_⟩
  · rintro ⟨a, ha, hmem⟩
    have hfail : ∀ t : SimState, t.bodies = s0.bodies →
        ∃ e, attach_actuator t a = Except.error e := by
      intro t ht
      have : t.bodies.lookup a.body = none := by
        apply lookup_eq_none_of_not_mem
        rw [ht, hnames]; exact hmem
      exact ⟨PyErr.valueError "Actuator parent body not found",
        by unfold attach_actuator; rw [this]⟩
    obtain ⟨e, he⟩ := foldlM_fails attach_actuator attach_actuator_bodies
      robot.actuators s0 a ha hfail
    exact ⟨e, by rw [hload, he]⟩
  · rintro ⟨sc, hsc, hmem⟩
    cases hact : robot.actuators.foldlM attach_actuator s0 with
    | error e => exact ⟨e, by rw [hload, hact]⟩
    | ok s1 =>
        have hb1 : s1.bodies = s0.bodies :=
          foldlM_bodies_eq attach_actuator attach_actuator_bodies
            robot.actuators s0 s1 hact
        have hfail : ∀ t : SimState, t.bodies = s1.bodies →
            ∃ e, attach_sensor t sc = Except.error e := by
          intro t ht
          have : t.bodies.lookup sc.body = none := by
            apply lookup_eq_none_of_not_mem
            rw [ht, hb1, hnames]; exact hmem
          exact ⟨PyErr.valueError "Sensor parent body not found",
            by unfold attach_sensor; rw [this]⟩
        obtain ⟨e, he⟩ := foldlM_fails attach_sensor attach_sensor_bodies
          robot.sensors s1 sc hsc hfail
        refine ⟨e, ?_⟩
        rw [hload, hact]
        show (match robot.sensors.foldlM attach_sensor s1 with
              | Except.error e => Except.error e
              | Except.ok s2 => Except.ok s2) = Except.error e
        rw [he]
  · intro hypotF trig dt mpc jr reg hmiss
    unfold solve_joints
    rcases hmiss with h | h
    · simp only [List.foldl_cons, List.foldl_nil, h]
      cases reg.lookup jr.cfg.child <;> simp
    · cases hp : reg.lookup jr.cfg.parent <;>
        simp only [List.foldl_cons, List.foldl_nil, h, hp] <;> simp

/-- C2 (witness): the amended theorem at a concrete scenario — an
actuator on the missing body `"nowhere"` and a sensor on the missing
body `"nothing_here"` each abort the load, and a joint with missing
child `"ghost"` is skipped by the solver against a one-body registry. -/
theorem C2_witness :
    (∃ e,
      loadModel { }
        { bodies := [{ name := "base" }],
          actuators := [{ name := "m", body := "nowhere" }] }
        true false = Except.error e) ∧
    (∃ e,
      loadModel { }
        { bodies := [{ name := "base" }],
          sensors := [{ name := "s", type := "distance", body := "nothing_here" }] }
        true false = Except.error e) ∧
    solve_joints (fun _ _ => 0) (fun _ => (1, 0)) (1 / 120) (1 / 20)
      [{ cfg := { name := "j", parent := "base", child := "ghost",
                  anchor_parent := (0, 0), anchor_child := (0, 0),
                  lower_limit := 0, upper_limit := 0 } }]
      [("base", make_body { name := "base" } none)]
      = ([{ cfg := { name := "j", parent := "base", child := "ghost",
                     anchor_parent := (0, 0), anchor_child := (0, 0),
                     lower_limit := 0, upper_limit := 0 } }],
         [("base", make_body { name := "base" } none)]) := by
  refine ⟨?_, ?_, ?_⟩
  · exact (C2_missing_body_errors { } _ true false).1
      ⟨{ name := "m", body := "nowhere" }, by simp,
       by simp [loadRegistryNames]⟩
  · exact (C2_missing_body_errors { } _ true false).2.1
      ⟨{ name := "s", type := "distance", body := "nothing_here" }, by simp,
       by simp [loadRegistryNames]⟩
  · exact (C2_missing_body_errors { } { } true false).2.2
      (fun _ _ => 0) (fun _ => (1, 0)) (1 / 120) (1 / 20) _ _ (Or.inr rfl)

/-- C3: with the parent body present and `params["detailed"]` not set,
`_attach_actuator` raises `TypeError` — the simulator passes the
keyword arguments `response_time` and `max_wheel_omega`, which
`WheelMotor.__init__` does not declare; consequently every scenario
containing a simple (non-detailed) wheel motor fails to load. -/
theorem C3_simple_wheel_motor_type_error :
    (∀ (s : SimState) (cfg : ActuatorConfig),
      (s.bodies.lookup cfg.body).isSome →
      cfg.params.detailed = false →
      attach_actuator s cfg =
        Except.error (PyErr.typeError "unexpected keyword argument")) ∧
    (∀ (world : WorldConfig) (robot : RobotConfig) (topDown ignoreTerrain : Bool),
      (∃ a ∈ robot.actuators, a.params.detailed = false) →
      ∃ e, loadModel world robot topDown ignoreTerrain = Except.error e) := by
  have hkw : pythonKwargCheck wheelMotorInitKwargs simulatorWheelMotorCallKwargs
      = Except.error (PyErr.typeError "unexpected keyword argument") := rfl
  have hattach : ∀ (s : SimState) (cfg : ActuatorConfig),
      cfg.params.detailed = false →
      attach_actuator s cfg = Except.error (PyErr.valueError "Actuator parent body not found")
        ∨ attach_actuator s cfg = Except.error (PyErr.typeError "unexpected keyword argument") := by
    intro s cfg hd
    unfold attach_actuator
    cases hl : s.bodies.lookup cfg.body with
    | none => exact Or.inl rfl
    | some p =>
        right
        rw [if_neg (by rw [hd]; exact Bool.false_ne_true), hkw]
  constructor
  · intro s cfg hsome hd
    unfold attach_actuator
    cases hl : s.bodies.lookup cfg.body with
    | none => rw [hl] at hsome; simp at hsome
    | some p => rw [if_neg (by rw [hd]; exact Bool.false_ne_true), hkw]
  · intro world robot topDown ignoreTerrain ⟨a, ha, hd⟩
    obtain ⟨s0, _, hload⟩ :=
      loadModel_pre_device_bodies world robot topDown ignoreTerrain
    have hfail : ∀ t : SimState, t.bodies = s0.bodies →
        ∃ e, attach_actuator t a = Except.error e := by
      intro t _
      rcases hattach t a hd with h | h
      · exact ⟨_, h⟩
      · exact ⟨_, h⟩
    obtain ⟨e, he⟩ := foldlM_fails attach_actuator attach_actuator_bodies
      robot.actuators s0 a ha hfail
    exact ⟨e, by rw [hload, he]⟩

/-- C3 (witness): the theorem at a concrete simulator state holding the
body `"base"` and a non-detailed motor config mounted on it: the attach
raises `TypeError`, and a one-motor scenario fails to load. -/
theorem C3_witness :
    attach_actuator
      { bodies := [("base", make_body { name := "base" } none)] }
      { name := "m", body := "base" }
      = Except.error (PyErr.typeError "unexpected keyword argument") ∧
    (∃ e,
      loadModel { }
        { bodies := [{ name := "base" }],
          actuators := [{ name := "m", body := "base" }] }
        true false = Except.error e) := by
  constructor
  · exact C3_simple_wheel_motor_type_error.1
      { bodies := [("base", make_body { name := "base" } none)] }
      { name := "m", body := "base" } (by simp) rfl
  · exact C3_simple_wheel_motor_type_error.2 { } _ true false
      ⟨{ name := "m", body := "base" }, by simp, rfl⟩

/-! ## Claim C8: wheel traction edge cases -/

/-- C8 (counterexample): the claim says a zero *or negative* friction
cap (friction coefficient times normal load times dt) yields zero
applied impulse — but the code caps with `abs(mu_long)` (motors.py line
66), so with `mu_long = -1`, normal load `1`, `dt = 1` the claimed cap
`-1` is negative yet a commanded drive impulse of `1/2` is applied in
full: the returned longitudinal impulse is `1/2` and the body's
velocity changes. -/
theorem C8_counterexample :
    ((-1 : ℚ) * 1 * 1 ≤ 0) ∧
    (solve_wheel_traction
      { name := "w", pose := { x := 0, y := 0, theta := 0 },
        material := { friction := 9 / 10, restitution := 1 / 10 },
        can_move := true,
        state := { mass := 1, moment_of_inertia := 1,
                   linear_velocity := (0, 0), angular_velocity := 0,
                   force_accum := (0, 0) } }
      (0, 0) (1, 0) (1 / 2) (-1) 0 1 (1 / 4) 1).2 = 1 / 2 ∧
    (solve_wheel_traction
      { name := "w", pose := { x := 0, y := 0, theta := 0 },
        material := { friction := 9 / 10, restitution := 1 / 10 },
        can_move := true,
        state := { mass := 1, moment_of_inertia := 1,
                   linear_velocity := (0, 0), angular_velocity := 0,
                   force_accum := (0, 0) } }
      (0, 0) (1, 0) (1 / 2) (-1) 0 1 (1 / 4) 1).1.state.linear_velocity
      = (1 / 2, 0) ∧
    ((1 : ℚ) / 2 ≠ 0) := by
  refine ⟨by norm_num, ?_, ?_, by norm_num⟩ <;>
    norm_num [solve_wheel_traction, apply_impulse, contact_velocity,
      inv_mass_term, clampQ]

/-- C8 (amended): an unattached wheel motor is a no-op (`none` in,
nothing out), a wheel motor on an immovable parent is a no-op, and
whenever both friction caps `|mu| * max(normalLoad, 0) * dt` are zero
(in particular at zero normal load with any command, or with a zero
friction coefficient) the traction solve applies no impulse at all and
returns a zero longitudinal impulse — negative friction coefficients,
however, act as their absolute value. -/
theorem C8_traction_no_ops
    (trig : ℚ → ℚ × ℚ) (m : WheelMotorData) (p : SimObject) (value dt0 : ℚ)
    (b : SimObject) (cp fwd : ℚ × ℚ)
    (drive mu_long mu_lat load ld dt : ℚ)
    (hp : p.can_move = false)
    (hlong : |mu_long| * max load 0 * dt ≤ 0)
    (hlat : |mu_lat| * max load 0 * dt ≤ 0) :
    wheelMotorApply trig m none value dt0 = none ∧
    wheelMotorApply trig m (some p) value dt0 = some p ∧
    solve_wheel_traction b cp fwd drive mu_long mu_lat load ld dt = (b, 0) := by
  refine ⟨rfl, ?_, ?_⟩
  · simp only [wheelMotorApply]
    rw [if_pos (by rw [hp]; exact Bool.false_ne_true)]
  · by_cases hm : b.can_move = true
    · simp only [solve_wheel_traction]
      rw [if_neg (by simp [hm])]
      rw [if_neg (not_lt.mpr hlong)]
      rw [if_neg (not_lt.mpr hlat)]
      rw [if_neg (by norm_num : ¬ ((0:ℚ) ≠ 0))]
    · simp only [solve_wheel_traction]
      rw [if_pos (by simpa using hm)]

/-- C8 (witness): the amended theorem at a movable unit-mass body with
zero normal load and the default friction coefficients, a concrete
immovable parent, and a concrete motor. -/
theorem C8_witness :
    wheelMotorApply (fun _ => (1, 0)) { mount_pose := { x := 0, y := 0, theta := 0 } }
      none 1 (1 / 120) = none ∧
    wheelMotorApply (fun _ => (1, 0)) { mount_pose := { x := 0, y := 0, theta := 0 } }
      (some { name := "wall", pose := { x := 0, y := 0, theta := 0 },
              material := { friction := 9 / 10, restitution := 1 / 10 }, can_move := false,
              state := { mass := 10, moment_of_inertia := 10,
                         linear_velocity := (0, 0), angular_velocity := 0,
                         force_accum := (0, 0) } }) 1 (1 / 120)
      = some { name := "wall", pose := { x := 0, y := 0, theta := 0 },
               material := { friction := 9 / 10, restitution := 1 / 10 }, can_move := false,
               state := { mass := 10, moment_of_inertia := 10,
                          linear_velocity := (0, 0), angular_velocity := 0,
                          force_accum := (0, 0) } } ∧
    solve_wheel_traction
      { name := "bot", pose := { x := 0, y := 0, theta := 0 },
        material := { friction := 9 / 10, restitution := 1 / 10 }, can_move := true,
        state := { mass := 1, moment_of_inertia := 1,
                   linear_velocity := (3, -2), angular_velocity := 1,
                   force_accum := (0, 0) } }
      (0, 0) (1, 0) (1 / 60) (9 / 10) (8 / 10) 0 (1 / 4) (1 / 120)
      = ({ name := "bot", pose := { x := 0, y := 0, theta := 0 },
           material := { friction := 9 / 10, restitution := 1 / 10 }, can_move := true,
           state := { mass := 1, moment_of_inertia := 1,
                      linear_velocity := (3, -2), angular_velocity := 1,
                      force_accum := (0, 0) } }, 0) :=
  C8_traction_no_ops (fun _ => (1, 0)) { mount_pose := { x := 0, y := 0, theta := 0 } }
    { name := "wall", pose := { x := 0, y := 0, theta := 0 },
      material := { friction := 9 / 10, restitution := 1 / 10 }, can_move := false,
      state := { mass := 10, moment_of_inertia := 10,
                 linear_velocity := (0, 0), angular_velocity := 0,
                 force_accum := (0, 0) } }
    1 (1 / 120)
    { name := "bot", pose := { x := 0, y := 0, theta := 0 },
      material := { friction := 9 / 10, restitution := 1 / 10 }, can_move := true,
      state := { mass := 1, moment_of_inertia := 1,
                 linear_velocity := (3, -2), angular_velocity := 1,
                 force_accum := (0, 0) } }
    (0, 0) (1, 0) (1 / 60) (9 / 10) (8 / 10) 0 (1 / 4) (1 / 120)
    rfl (by norm_num) (by norm_num)

/-! ## Claim C9: contact normal and friction impulses -/

/-- The shape of the contact solver's velocity updates on the first
body of a pair: subtract a scaled impulse from the linear velocity of a
movable body, leaving its pose and angular velocity untouched. -/
def linSub (s : SimObject) (c : ℚ) (imp : ℚ × ℚ) : SimObject :=
  if s.can_move then
    { s with state := { s.state with linear_velocity :=
        (s.state.linear_velocity.1 - c * imp.1,
         s.state.linear_velocity.2 - c * imp.2) } }
  else s

/-- The shape of the contact solver's velocity updates on the second
body of a pair: add a scaled impulse to the linear velocity of a
movable body, leaving its pose and angular velocity untouched. -/
def linAdd (s : SimObject) (c : ℚ) (imp : ℚ × ℚ) : SimObject :=
  if s.can_move then
    { s with state := { s.state with linear_velocity :=
        (s.state.linear_velocity.1 + c * imp.1,
         s.state.linear_velocity.2 + c * imp.2) } }
  else s

lemma abs_clamp_le (x L : ℚ) (hL : 0 ≤ L) : |max (-L) (min L x)| ≤ L := by
  rw [abs_le]
  exact ⟨le_max_left _ _, max_le (by linarith) (min_le_left _ _)⟩

/-- C9: for an overlapping pair with positive combined inverse mass and
approaching relative normal velocity, the contact solver's velocity
phase applies the normal impulse `J = -(1+e)·vn/(invA+invB)` with
`e = clamp(max(restA, restB), 0, 1)`, split by inverse mass and acting
on linear velocities only (pose and angular velocity untouched),
followed by a tangential friction impulse along the rotated normal
whose magnitude is at most `μ·|J|` with `μ` the mean of the two
friction coefficients. -/
theorem C9_contact_impulse (a b : SimObject) (normal : ℚ × ℚ) (ia ibq : ℚ)
    (hvn : (a.state.linear_velocity.1 - b.state.linear_velocity.1) * normal.1 +
           (a.state.linear_velocity.2 - b.state.linear_velocity.2) * normal.2 < 0)
    (hsum : 0 < ia + ibq)
    (hfa : 0 ≤ a.material.friction) (hfb : 0 ≤ b.material.friction) :
    ∃ J jt : ℚ,
      J = -(1 + clampQ (max a.material.restitution b.material.restitution) 0 1) *
          ((a.state.linear_velocity.1 - b.state.linear_velocity.1) * normal.1 +
           (a.state.linear_velocity.2 - b.state.linear_velocity.2) * normal.2) /
          (ia + ibq) ∧
      contactVelocityUpdate a b normal ia ibq =
        (linSub (linSub a ia (J * normal.1, J * normal.2)) ia
           (jt * -normal.2, jt * normal.1),
         linAdd (linAdd b ibq (J * normal.1, J * normal.2)) ibq
           (jt * -normal.2, jt * normal.1)) ∧
      0 < J ∧
      |jt| ≤ (a.material.friction + b.material.friction) / 2 * |J| := by
  have hguard : ¬ ((a.state.linear_velocity.1 - b.state.linear_velocity.1) * normal.1 +
      (a.state.linear_velocity.2 - b.state.linear_velocity.2) * normal.2 > 0) :=
    not_lt.mpr (le_of_lt hvn)
  have hrest : 0 ≤ clampQ (max a.material.restitution b.material.restitution) 0 1 :=
    le_max_left _ _
  have hmu : 0 ≤ (a.material.friction + b.material.friction) / 2 := by linarith
  simp only [contactVelocityUpdate]
  rw [if_neg hguard]
  refine ⟨_, _, rfl, rfl, ?_, ?_⟩
  · apply div_pos _ hsum
    nlinarith
  · apply abs_clamp_le
    exact mul_nonneg hmu (abs_nonneg _)

/-- C9 (witness): the theorem at two concrete movable unit-mass bodies
approaching head-on along the contact normal `(1, 0)`. -/
theorem C9_witness :
    ((0 : ℚ) < 1 + 1) ∧
    (∃ J jt : ℚ,
      J = -(1 + clampQ (max (1 / 2 : ℚ) (1 / 4)) 0 1) *
          (((-1 : ℚ) - 0) * 1 + ((0 : ℚ) - 0) * 0) / (1 + 1) ∧
      contactVelocityUpdate
        { name := "a", pose := { x := 0, y := 0, theta := 0 },
          material := { friction := 1 / 2, restitution := 1 / 2 },
          can_move := true,
          state := { mass := 1, moment_of_inertia := 1,
                     linear_velocity := (-1, 0), angular_velocity := 0,
                     force_accum := (0, 0) } }
        { name := "b", pose := { x := 1, y := 0, theta := 0 },
          material := { friction := 1 / 2, restitution := 1 / 4 },
          can_move := true,
          state := { mass := 1, moment_of_inertia := 1,
                     linear_velocity := (0, 0), angular_velocity := 0,
                     force_accum := (0, 0) } }
        (1, 0) 1 1 =
        (linSub (linSub
            { name := "a", pose := { x := 0, y := 0, theta := 0 },
              material := { friction := 1 / 2, restitution := 1 / 2 },
              can_move := true,
              state := { mass := 1, moment_of_inertia := 1,
                         linear_velocity := (-1, 0), angular_velocity := 0,
                         force_accum := (0, 0) } }
            1 (J * 1, J * 0)) 1 (jt * -0, jt * 1),
         linAdd (linAdd
            { name := "b", pose := { x := 1, y := 0, theta := 0 },
              material := { friction := 1 / 2, restitution := 1 / 4 },
              can_move := true,
              state := { mass := 1, moment_of_inertia := 1,
                         linear_velocity := (0, 0), angular_velocity := 0,
                         force_accum := (0, 0) } }
            1 (J * 1, J * 0)) 1 (jt * -0, jt * 1)) ∧
      0 < J ∧
      |jt| ≤ (1 / 2 + 1 / 2) / 2 * |J|) := by
  refine ⟨by norm_num, ?_⟩
  have h := C9_contact_impulse
    { name := "a", pose := { x := 0, y := 0, theta := 0 },
      material := { friction := 1 / 2, restitution := 1 / 2 },
      can_move := true,
      state := { mass := 1, moment_of_inertia := 1,
                 linear_velocity := (-1, 0), angular_velocity := 0,
                 force_accum := (0, 0) } }
    { name := "b", pose := { x := 1, y := 0, theta := 0 },
      material := { friction := 1 / 2, restitution := 1 / 4 },
      can_move := true,
      state := { mass := 1, moment_of_inertia := 1,
                 linear_velocity := (0, 0), angular_velocity := 0,
                 force_accum := (0, 0) } }
    (1, 0) 1 1 (by norm_num) (by norm_num) (by norm_num) (by norm_num)
  exact h

/-! ## Claim C10: repositioning resets accumulated joint multipliers -/

/-- C10: after every call to `reposition_robot`, every joint's
accumulated multiplier is zero.  The hypothesis is the load-time
invariant that joints only exist once a robot config is loaded
(`Simulator.load` stores `robot_cfg` before building the joints list, so
a simulator with joints always has a robot config). -/
theorem C10_reposition_resets_lambda (s : SimState) (spawn : ℚ × ℚ × ℚ)
    (zv sas : Bool) (hreach : s.robotCfg = none → s.joints = []) :
    ∀ jr ∈ (reposition_robot s spawn zv sas).joints, jr.lambda_accum = 0 := by
  intro jr hjr
  unfold reposition_robot at hjr
  cases hrc : s.robotCfg with
  | none =>
      rw [hrc] at hjr
      rw [hreach hrc] at hjr
      exact absurd hjr (List.not_mem_nil jr)
  | some rc =>
      rw [hrc] at hjr
      simp only [List.mem_map] at hjr
      obtain ⟨jr0, _, heq⟩ := hjr
      rw [← heq]

/-- C10 (witness): the theorem at a concrete simulator whose single
joint carries the accumulated multiplier `5` before a teleport. -/
theorem C10_witness :
    ((reposition_robot
      { joints :=
          [{ cfg :=
               { name := "j", parent := "base", child := "arm",
                 anchor_parent := (0, 0), anchor_child := (0, 0),
                 lower_limit := 0, upper_limit := 0 },
             lambda_accum := 5 }],
        bodies := [("base", make_body { name := "base" } none)],
        robotCfg := some { bodies := [{ name := "base" }] } }
      (1, 2, 3) true false).joints.all fun jr => jr.lambda_accum == 0) = true := by
  have h := C10_reposition_resets_lambda
    { joints :=
        [{ cfg :=
             { name := "j", parent := "base", child := "arm",
               anchor_parent := (0, 0), anchor_child := (0, 0),
               lower_limit := 0, upper_limit := 0 },
           lambda_accum := 5 }],
      bodies := [("base", make_body { name := "base" } none)],
      robotCfg := some { bodies := [{ name := "base" }] } }
    (1, 2, 3) true false (by simp)
  rw [List.all_eq_true]
  intro jr hjr
  exact beq_iff_eq.mpr (h jr hjr)

/-! ## Claim C5: snapshot / apply_snapshot round trip -/

lemma snapshot_lookup (l : Registry) (p : String × SimObject)
    (hnodup : (l.map Prod.fst).Nodup) (hp : p ∈ l) :
    (l.map (fun q => (q.1,
        ({ pose := q.2.pose, lin_vel := q.2.state.linear_velocity,
           ang_vel := q.2.state.angular_velocity } : BodySnap)))).lookup p.1 =
      some { pose := p.2.pose, lin_vel := p.2.state.linear_velocity,
             ang_vel := p.2.state.angular_velocity } := by
  induction l with
  | nil => cases hp
  | cons q t ih =>
      rw [List.map_cons, List.lookup_cons]
      rcases List.mem_cons.mp hp with heq | hmem
      · subst heq
        rw [show (p.1 == p.1) = true from beq_self_eq_true p.1]
      · have hnodup' : (q.1 :: t.map Prod.fst).Nodup := by
          rw [List.map_cons] at hnodup; exact hnodup
        have hnd := List.nodup_cons.mp hnodup'
        have hne : p.1 ≠ q.1 := by
          intro h
          exact hnd.1 (h ▸ List.mem_map_of_mem Prod.fst hmem)
        rw [beq_eq_false_iff_ne.mpr hne]
        exact ih hnd.2 hmem

/-- C5: snapshotting and immediately applying the snapshot to the same
live simulator is the identity — every body's pose and velocities, and
`time`/`step_index`, are unchanged (given the registry's dict
invariant of unique body names); and for any snapshot whatsoever,
applying it never adds or removes registry entries — snapshot names
absent from the live registry are silently skipped. -/
theorem C5_snapshot_roundtrip :
    (∀ s : SimState, (s.bodies.map Prod.fst).Nodup →
      apply_snapshot (snapshot s) s = s) ∧
    (∀ (snap : SnapshotState) (s : SimState),
      (apply_snapshot snap s).bodies.map Prod.fst = s.bodies.map Prod.fst) := by
  constructor
  · intro s hnodup
    unfold apply_snapshot snapshot
    have hb : (s.bodies.map (fun p =>
        match (s.bodies.map (fun q => (q.1,
            ({ pose := q.2.pose, lin_vel := q.2.state.linear_velocity,
               ang_vel := q.2.state.angular_velocity } : BodySnap)))).lookup p.1 with
        | some e => (p.1, { p.2 with
            pose := e.pose,
            state := { p.2.state with
              linear_velocity := e.lin_vel,
              angular_velocity := e.ang_vel } })
        | none => p)) = s.bodies := by
      have : ∀ p ∈ s.bodies, (match (s.bodies.map (fun q => (q.1,
            ({ pose := q.2.pose, lin_vel := q.2.state.linear_velocity,
               ang_vel := q.2.state.angular_velocity } : BodySnap)))).lookup p.1 with
          | some e => (p.1, { p.2 with
              pose := e.pose,
              state := { p.2.state with
                linear_velocity := e.lin_vel,
                angular_velocity := e.ang_vel } })
          | none => p) = p := by
        intro p hp
        rw [snapshot_lookup s.bodies p hnodup hp]
      calc s.bodies.map _ = s.bodies.map id := List.map_congr_left this
        _ = s.bodies := List.map_id s.bodies
    rw [hb]
  · intro snap s
    unfold apply_snapshot
    rw [List.map_map]
    apply List.map_congr_left
    intro p _
    cases h : snap.bodies.lookup p.1 <;> simp [Function.comp_def, h]

/-- C5 (witness): the theorem applied to a concrete two-body simulator
mid-run, and to a snapshot carrying the stale body name `"gone"`. -/
theorem C5_witness :
    apply_snapshot
      (snapshot
        { time := 7 / 2, stepIndex := 42,
          bodies := [("a", make_body { name := "a" } none),
                     ("b", make_body { name := "b", pose := (1, 2, 3) } none)] })
      { time := 7 / 2, stepIndex := 42,
        bodies := [("a", make_body { name := "a" } none),
                   ("b", make_body { name := "b", pose := (1, 2, 3) } none)] } =
      { time := 7 / 2, stepIndex := 42,
        bodies := [("a", make_body { name := "a" } none),
                   ("b", make_body { name := "b", pose := (1, 2, 3) } none)] } ∧
    (apply_snapshot
      { time := 0, step := 0,
        bodies := [("gone", { pose := { x := 9, y := 9, theta := 9 },
                              lin_vel := (1, 1), ang_vel := 1 })] }
      { time := 7 / 2, stepIndex := 42,
        bodies := [("a", make_body { name := "a" } none)] }).bodies.map Prod.fst =
      [("a", make_body { name := "a" } none)].map Prod.fst := by
  constructor
  · exact C5_snapshot_roundtrip.1
      { time := 7 / 2, stepIndex := 42,
        bodies := [("a", make_body { name := "a" } none),
                   ("b", make_body { name := "b", pose := (1, 2, 3) } none)] }
      (by simp)
  · exact C5_snapshot_roundtrip.2
      { time := 0, step := 0,
        bodies := [("gone", { pose := { x := 9, y := 9, theta := 9 },
                              lin_vel := (1, 1), ang_vel := 1 })] }
      { time := 7 / 2, stepIndex := 42,
        bodies := [("a", make_body { name := "a" } none)] }

/-! ## Claims C6/C7: controller error containment and step ordering -/

lemma tick_controller_skip (ctrl : Option CtrlFn) (readings : List (String × ℚ))
    (dt : ℚ) (lastErr : Option String) (h : lastErr.isSome = true) :
    tick_controller ctrl readings dt lastErr = (lastErr, []) := by
  cases ctrl with
  | none => rfl
  | some f => simp only [tick_controller]; rw [if_pos h]

lemma tick_controller_raise (f : CtrlFn) (readings : List (String × ℚ))
    (dt : ℚ) (e : String) (h : f readings dt = Except.error e) :
    tick_controller (some f) readings dt none = (some e, [Ev.ctrlInvoked]) := by
  simp only [tick_controller]
  rw [if_neg (by simp), h]

lemma tick_controller_invoked (f : CtrlFn) (readings : List (String × ℚ)) (dt : ℚ) :
    (tick_controller (some f) readings dt none).2 = [Ev.ctrlInvoked] := by
  simp only [tick_controller]
  rw [if_neg (by simp)]
  cases f readings dt <;> rfl

lemma tick_controller_events (ctrl : Option CtrlFn) (readings : List (String × ℚ))
    (dt : ℚ) (lastErr : Option String) :
    (tick_controller ctrl readings dt lastErr).2 = [] ∨
    (tick_controller ctrl readings dt lastErr).2 = [Ev.ctrlInvoked] := by
  cases ctrl with
  | none => left; rfl
  | some f =>
      simp only [tick_controller]
      by_cases h : lastErr.isSome = true
      · rw [if_pos h]; left; rfl
      · rw [if_neg h]; cases f readings dt
        · right; rfl
        · right; rfl

lemma stepModel_snd (hypotF : ℚ → ℚ → ℚ) (trig : ℚ → ℚ × ℚ)
    (collide : String → Pose2D → String → Pose2D → Option Manifold)
    (sensorRead : String → ℚ → Option ℚ) (ctrl : Option CtrlFn)
    (s : SimState) (dtOpt : Option ℚ) :
    (stepModel hypotF trig collide sensorRead ctrl s dtOpt).2 =
      [Ev.recordPrevPoses, Ev.readSensors, Ev.tickController] ++
      (tick_controller ctrl (readingsOf sensorRead s.sensors (dtOpt.getD s.dt))
        (dtOpt.getD s.dt) s.lastCtrlErr).2 ++
      [Ev.integratePhase, Ev.solveJointsPhase, Ev.solveContactsPhase,
       Ev.sanityCheckPhase] ++
      (if s.traceEnabled then [Ev.recordTracePhase] else []) ++ [Ev.advanceTime] := by
  simp only [stepModel]
  rcases h : tick_controller ctrl (readingsOf sensorRead s.sensors (dtOpt.getD s.dt))
    (dtOpt.getD s.dt) s.lastCtrlErr with ⟨err, evc⟩
  by_cases htr : s.traceEnabled = true <;> simp [htr]

lemma stepModel_fst (hypotF : ℚ → ℚ → ℚ) (trig : ℚ → ℚ × ℚ)
    (collide : String → Pose2D → String → Pose2D → Option Manifold)
    (sensorRead : String → ℚ → Option ℚ) (ctrl : Option CtrlFn)
    (s : SimState) (dtOpt : Option ℚ) :
    (stepModel hypotF trig collide sensorRead ctrl s dtOpt).1.lastCtrlErr =
      (tick_controller ctrl (readingsOf sensorRead s.sensors (dtOpt.getD s.dt))
        (dtOpt.getD s.dt) s.lastCtrlErr).1 ∧
    (stepModel hypotF trig collide sensorRead ctrl s dtOpt).1.time =
      s.time + dtOpt.getD s.dt ∧
    (stepModel hypotF trig collide sensorRead ctrl s dtOpt).1.stepIndex =
      s.stepIndex + 1 := by
  simp only [stepModel]
  rcases h : tick_controller ctrl (readingsOf sensorRead s.sensors (dtOpt.getD s.dt))
    (dtOpt.getD s.dt) s.lastCtrlErr with ⟨err, evc⟩
  by_cases htr : s.traceEnabled = true <;> simp [htr]

/-- C7: every `step` call performs exactly the claimed phase sequence:
record pre-step poses, read sensors against the pre-step state, tick
the controller, integrate bodies, solve joints, resolve contacts, run
the step-displacement sanity check against the pre-step poses, record a
trace entry exactly when tracing is enabled, and finally advance
simulated time by dt and increment the step counter (the controller
sub-event of phase three is filtered out of the phase sequence). -/
theorem C7_step_phase_order (hypotF : ℚ → ℚ → ℚ) (trig : ℚ → ℚ × ℚ)
    (collide : String → Pose2D → String → Pose2D → Option Manifold)
    (sensorRead : String → ℚ → Option ℚ) (ctrl : Option CtrlFn)
    (s : SimState) (dtOpt : Option ℚ) :
    (stepModel hypotF trig collide sensorRead ctrl s dtOpt).2.filter
        (fun e => !(e == Ev.ctrlInvoked)) =
      [Ev.recordPrevPoses, Ev.readSensors, Ev.tickController,
       Ev.integratePhase, Ev.solveJointsPhase, Ev.solveContactsPhase,
       Ev.sanityCheckPhase] ++
      (if s.traceEnabled then [Ev.recordTracePhase] else []) ++
      [Ev.advanceTime] ∧
    (stepModel hypotF trig collide sensorRead ctrl s dtOpt).1.time =
      s.time + dtOpt.getD s.dt ∧
    (stepModel hypotF trig collide sensorRead ctrl s dtOpt).1.stepIndex =
      s.stepIndex + 1 := by
  refine ⟨?_, (stepModel_fst hypotF trig collide sensorRead ctrl s dtOpt).2.1,
    (stepModel_fst hypotF trig collide sensorRead ctrl s dtOpt).2.2⟩
  rw [stepModel_snd]
  rcases tick_controller_events ctrl
    (readingsOf sensorRead s.sensors (dtOpt.getD s.dt)) (dtOpt.getD s.dt)
    s.lastCtrlErr with h | h <;> rw [h]
  · by_cases htr : s.traceEnabled = true
    · rw [if_pos htr]; decide
    · rw [if_neg htr]; decide
  · by_cases htr : s.traceEnabled = true
    · rw [if_pos htr]; decide
    · rw [if_neg htr]; decide

/-- C6: a controller exception during `step` is captured into the
last-controller-error field instead of propagating (the embedded `step`
is a total function returning the updated state); on any state whose
error field is set, `step` does not invoke the controller — while the
physics phases (integration, joints, contacts) still run and the tick
still advances time and the step counter — and the field survives the
step unchanged; `clear_controller_error` resets the field, after which
the next step invokes the controller again. -/
theorem C6_controller_error_containment (hypotF : ℚ → ℚ → ℚ)
    (trig : ℚ → ℚ × ℚ)
    (collide : String → Pose2D → String → Pose2D → Option Manifold)
    (sensorRead : String → ℚ → Option ℚ) (f : CtrlFn)
    (s : SimState) (dtOpt : Option ℚ) (e : String)
    (hnoerr : s.lastCtrlErr = none)
    (hraise : f (readingsOf sensorRead s.sensors (dtOpt.getD s.dt))
      (dtOpt.getD s.dt) = Except.error e) :
    (stepModel hypotF trig collide sensorRead (some f) s dtOpt).1.lastCtrlErr
      = some e ∧
    Ev.ctrlInvoked ∈ (stepModel hypotF trig collide sensorRead (some f) s dtOpt).2 ∧
    (∀ (s' : SimState) (dtOpt' : Option ℚ) (ctrl' : Option CtrlFn),
      s'.lastCtrlErr.isSome = true →
      Ev.ctrlInvoked ∉ (stepModel hypotF trig collide sensorRead ctrl' s' dtOpt').2 ∧
      (stepModel hypotF trig collide sensorRead ctrl' s' dtOpt').1.lastCtrlErr
        = s'.lastCtrlErr ∧
      Ev.integratePhase ∈ (stepModel hypotF trig collide sensorRead ctrl' s' dtOpt').2 ∧
      Ev.solveJointsPhase ∈ (stepModel hypotF trig collide sensorRead ctrl' s' dtOpt').2 ∧
      Ev.solveContactsPhase ∈ (stepModel hypotF trig collide sensorRead ctrl' s' dtOpt').2 ∧
      (stepModel hypotF trig collide sensorRead ctrl' s' dtOpt').1.time
        = s'.time + dtOpt'.getD s'.dt ∧
      (stepModel hypotF trig collide sensorRead ctrl' s' dtOpt').1.stepIndex
        = s'.stepIndex + 1) ∧
    (∀ s' : SimState, (clear_controller_error s').lastCtrlErr = none ∧
      Ev.ctrlInvoked ∈ (stepModel hypotF trig collide sensorRead (some f)
        (clear_controller_error s') dtOpt).2) := by
  refine ⟨?_, ?_, ?_, ?_⟩
  · rw [(stepModel_fst hypotF trig collide sensorRead (some f) s dtOpt).1, hnoerr,
      tick_controller_raise f _ _ e hraise]
  · rw [stepModel_snd, hnoerr, tick_controller_raise f _ _ e hraise]
    simp
  · intro s' dtOpt' ctrl' hsome
    refine ⟨?_, ?_, ?_, ?_, ?_,
      (stepModel_fst hypotF trig collide sensorRead ctrl' s' dtOpt').2.1,
      (stepModel_fst hypotF trig collide sensorRead ctrl' s' dtOpt').2.2⟩
    · rw [stepModel_snd, tick_controller_skip _ _ _ _ hsome]
      by_cases htr : s'.traceEnabled = true
      · rw [if_pos htr]; simp
      · rw [if_neg htr]; simp
    · rw [(stepModel_fst hypotF trig collide sensorRead ctrl' s' dtOpt').1,
        tick_controller_skip _ _ _ _ hsome]
    · rw [stepModel_snd]; simp
    · rw [stepModel_snd]; simp
    · rw [stepModel_snd]; simp
  · intro s'
    refine ⟨rfl, ?_⟩
    rw [stepModel_snd]
    have : (clear_controller_error s').lastCtrlErr = none := rfl
    rw [this, tick_controller_invoked]
    simp

/-- C6 (witness): the theorem at a controller hook that always raises
`"boom"`, on a freshly initialised simulator state. -/
theorem C6_witness :
    (stepModel (fun _ _ => 0) (fun _ => (1, 0)) (fun _ _ _ _ => none)
      (fun _ _ => none) (some (fun _ _ => Except.error "boom")) { } none).1.lastCtrlErr
      = some "boom" ∧
    Ev.ctrlInvoked ∈ (stepModel (fun _ _ => 0) (fun _ => (1, 0)) (fun _ _ _ _ => none)
      (fun _ _ => none) (some (fun _ _ => Except.error "boom")) { } none).2 ∧
    Ev.ctrlInvoked ∉ (stepModel (fun _ _ => 0) (fun _ => (1, 0)) (fun _ _ _ _ => none)
      (fun _ _ => none) (some (fun _ _ => Except.error "boom"))
      { lastCtrlErr := some "boom" } none).2 ∧
    Ev.integratePhase ∈ (stepModel (fun _ _ => 0) (fun _ => (1, 0)) (fun _ _ _ _ => none)
      (fun _ _ => none) (some (fun _ _ => Except.error "boom"))
      { lastCtrlErr := some "boom" } none).2 ∧
    (clear_controller_error { lastCtrlErr := some "boom" }).lastCtrlErr = none := by
  have h := C6_controller_error_containment (fun _ _ => 0) (fun _ => (1, 0))
    (fun _ _ _ _ => none) (fun _ _ => none) (fun _ _ => Except.error "boom")
    { } none "boom" rfl rfl
  obtain ⟨h1, h2, h3, h4⟩ := h
  obtain ⟨h31, _, h33, _, _, _, _⟩ := h3 { lastCtrlErr := some "boom" } none
    (some (fun _ _ => Except.error "boom")) rfl
  exact ⟨h1, h2, h31, h33, (h4 { lastCtrlErr := some "boom" }).1⟩

/-! ## Claim C4: velocity ceiling and sanitation -/

/-- C4 (counterexample): a single movable body is given the finite
linear velocity `(301/20, 0)` of magnitude `15.05`, exceeding the
default `max_linear_speed = 15` — yet after one `step()` (top-down, no
gravity) its speed is `59899/4000 = 14.97475 ≠ 15` and no physics
warning is recorded: the per-step damping factor `0.995` runs before
the clamp (simulator.py lines 585-588), so the damped speed no longer
exceeds the ceiling and the clamp never fires. -/
theorem C4_counterexample :
    (301 : ℚ) / 20 > 15 ∧
    (stepModel (fun x _ => x) (fun _ => (1, 0)) (fun _ _ _ _ => none)
      (fun _ _ => none) none
      { gravity := (0, 0),
        bodies := [("b",
          { name := "b", pose := { x := 0, y := 0, theta := 0 },
            material := { friction := 9 / 10, restitution := 1 / 10 },
            can_move := true,
            state := { mass := 1, moment_of_inertia := 1,
                       linear_velocity := (301 / 20, 0), angular_velocity := 0,
                       force_accum := (0, 0) } })] }
      none).1.bodies =
      [("b",
        { name := "b", pose := { x := 59899 / 480000, y := 0, theta := 0 },
          material := { friction := 9 / 10, restitution := 1 / 10 },
          can_move := true,
          state := { mass := 1, moment_of_inertia := 1,
                     linear_velocity := (59899 / 4000, 0), angular_velocity := 0,
                     force_accum := (0, 0) } })] ∧
    ((59899 : ℚ) / 4000 ≠ 15) ∧
    (stepModel (fun x _ => x) (fun _ => (1, 0)) (fun _ _ _ _ => none)
      (fun _ _ => none) none
      { gravity := (0, 0),
        bodies := [("b",
          { name := "b", pose := { x := 0, y := 0, theta := 0 },
            material := { friction := 9 / 10, restitution := 1 / 10 },
            can_move := true,
            state := { mass := 1, moment_of_inertia := 1,
                       linear_velocity := (301 / 20, 0), angular_velocity := 0,
                       force_accum := (0, 0) } })] }
      none).1.lastWarning = none := by
  refine ⟨by norm_num, ?_, by norm_num, ?_⟩ <;>
    norm_num [stepModel, tick_controller, readingsOf, integrate_bodies,
      integrate_body, SimObject.apply_force, SimObject.clear_impulses,
      SimObject.integrate, sanitize_velocity, sanitize_pose, solve_joints,
      solve_contacts, allPairs, check_step_sanity, check_step_sanity_body,
      applyWarnings, Pose2D.translated]

set_option maxHeartbeats 1000000 in
/-- C4 (amended): a movable body whose externally injected finite
linear velocity still exceeds `max_linear_speed` after the per-step
damping factor is clamped by one `step()` to a speed of exactly
`max_linear_speed` (squared magnitude equals the squared ceiling),
direction preserved (a positive scalar multiple of the injected
velocity), with a clamped-linear-speed physics warning recorded;
independently, a non-finite linear velocity component is reset to
`(0, 0)` and a non-finite angular velocity to `0` during sanitation,
each with a recorded warning. -/
theorem C4_velocity_clamp (hypotF : ℚ → ℚ → ℚ) (trig : ℚ → ℚ × ℚ)
    (collide : String → Pose2D → String → Pose2D → Option Manifold)
    (sensorRead : String → ℚ → Option ℚ) (ctrl : Option CtrlFn)
    (s : SimState) (dtOpt : Option ℚ) (n : String) (b : SimObject)
    (hbodies : s.bodies = [(n, b)]) (hjoints : s.joints = [])
    (hgrav : s.gravity = (0, 0))
    (hmove : b.can_move = true) (hmass : 0 < b.state.mass)
    (hforce : b.state.force_accum = (0, 0))
    (hld : 0 < s.linearDamping)
    (hangok : |b.state.angular_velocity * s.angularDamping| ≤ s.maxAngularSpeed)
    (hexact : IsExactHypot hypotF (b.state.linear_velocity.1 * s.linearDamping)
        (b.state.linear_velocity.2 * s.linearDamping))
    (hover : s.maxLinearSpeed <
      hypotF (b.state.linear_velocity.1 * s.linearDamping)
             (b.state.linear_velocity.2 * s.linearDamping))
    (hmaxfloor : 1 / 1000000000 ≤ s.maxLinearSpeed)
    (hsane : hypotF
        (b.state.linear_velocity.1 * s.linearDamping *
          (s.maxLinearSpeed / hypotF (b.state.linear_velocity.1 * s.linearDamping)
              (b.state.linear_velocity.2 * s.linearDamping)) * dtOpt.getD s.dt)
        (b.state.linear_velocity.2 * s.linearDamping *
          (s.maxLinearSpeed / hypotF (b.state.linear_velocity.1 * s.linearDamping)
              (b.state.linear_velocity.2 * s.linearDamping)) * dtOpt.getD s.dt)
        ≤ s.maxStepTranslation) :
    (∃ b' : SimObject,
      (stepModel hypotF trig collide sensorRead ctrl s dtOpt).1.bodies = [(n, b')] ∧
      b'.state.linear_velocity.1 * b'.state.linear_velocity.1 +
        b'.state.linear_velocity.2 * b'.state.linear_velocity.2
        = s.maxLinearSpeed * s.maxLinearSpeed ∧
      (∃ c : ℚ, 0 < c ∧ b'.state.linear_velocity =
        (c * b.state.linear_velocity.1, c * b.state.linear_velocity.2)) ∧
      (stepModel hypotF trig collide sensorRead ctrl s dtOpt).1.lastWarning
        = some (Warn.clampedLinear b.name)) ∧
    (∀ (maxL maxA : ℚ) (nm : String) (vy om : FloatQ),
      (sanitize_velocity_checked hypotF maxL maxA nm FloatQ.nonfin vy om).1.1 = (0, 0) ∧
      Warn.invalidLinear nm ∈
        (sanitize_velocity_checked hypotF maxL maxA nm FloatQ.nonfin vy om).2) ∧
    (∀ (maxL maxA : ℚ) (nm : String) (vx vy : FloatQ),
      (sanitize_velocity_checked hypotF maxL maxA nm vx vy FloatQ.nonfin).1.2 = 0 ∧
      Warn.invalidAngular nm ∈
        (sanitize_velocity_checked hypotF maxL maxA nm vx vy FloatQ.nonfin).2) := by
  refine ⟨?_, ?_, ?_⟩
  · have hmaxpos : (0 : ℚ) < s.maxLinearSpeed :=
      lt_of_lt_of_le (by norm_num) hmaxfloor
    have hspeedfloor : (1 : ℚ) / 1000000000 ≤
        hypotF (b.state.linear_velocity.1 * s.linearDamping)
               (b.state.linear_velocity.2 * s.linearDamping) :=
      le_trans hmaxfloor (le_of_lt hover)
    have hmaxeq : max (hypotF (b.state.linear_velocity.1 * s.linearDamping)
        (b.state.linear_velocity.2 * s.linearDamping)) (1 / 1000000000) =
        hypotF (b.state.linear_velocity.1 * s.linearDamping)
               (b.state.linear_velocity.2 * s.linearDamping) :=
      max_eq_left hspeedfloor
    have hangneg : ¬ (s.maxAngularSpeed > 0 ∧
        |b.state.angular_velocity * s.angularDamping| > s.maxAngularSpeed) := by
      rintro ⟨_, h2⟩
      exact absurd hangok (not_le.mpr h2)
    have hmassneg : ¬ b.state.mass ≤ 0 := not_le.mpr hmass
    have hguard : s.maxLinearSpeed > 0 ∧
        hypotF (b.state.linear_velocity.1 * s.linearDamping)
          (b.state.linear_velocity.2 * s.linearDamping) > s.maxLinearSpeed :=
      ⟨hmaxpos, hover⟩
    have hsane' : ¬ (hypotF
        (b.state.linear_velocity.1 * s.linearDamping *
          (s.maxLinearSpeed / hypotF (b.state.linear_velocity.1 * s.linearDamping)
              (b.state.linear_velocity.2 * s.linearDamping)) * dtOpt.getD s.dt)
        (b.state.linear_velocity.2 * s.linearDamping *
          (s.maxLinearSpeed / hypotF (b.state.linear_velocity.1 * s.linearDamping)
              (b.state.linear_velocity.2 * s.linearDamping)) * dtOpt.getD s.dt)
        > s.maxStepTranslation) := not_lt.mpr hsane
    have hSpos : (0 : ℚ) <
        hypotF (b.state.linear_velocity.1 * s.linearDamping)
          (b.state.linear_velocity.2 * s.linearDamping) :=
      lt_of_lt_of_le (by norm_num) hspeedfloor
    have hSne : hypotF (b.state.linear_velocity.1 * s.linearDamping)
        (b.state.linear_velocity.2 * s.linearDamping) ≠ 0 := ne_of_gt hSpos
    simp only [stepModel]
    rcases htc : tick_controller ctrl (readingsOf sensorRead s.sensors (dtOpt.getD s.dt))
      (dtOpt.getD s.dt) s.lastCtrlErr with ⟨err, evc⟩
    rw [hbodies, hjoints, hgrav]
    by_cases htr : s.traceEnabled = true <;>
      simp only [htr, integrate_bodies, List.foldl_cons, List.foldl_nil, List.nil_append,
        List.map_cons, List.map_nil, integrate_body, hmove, hmassneg, hforce,
        SimObject.apply_force, SimObject.clear_impulses, SimObject.integrate,
        sanitize_velocity, sanitize_pose, hmaxeq, hguard, hangneg, hsane',
        solve_joints, solve_contacts, allPairs, check_step_sanity,
        check_step_sanity_body, applyWarnings, List.lookup_cons, beq_self_eq_true,
        not_true, Bool.false_eq_true, false_or, or_false, if_false, if_true, and_self,
        zero_mul, add_zero, zero_add, zero_div, mul_zero, add_sub_cancel_left,
        ite_true, ite_false, List.append_nil, List.nil_append, List.foldl_nil] <;>
      by_cases hms : s.maxStepTranslation ≤ 0 <;>
      simp only [hms, if_true, if_false, ite_true, ite_false] <;>
      refine ⟨_, rfl, ?_, ?_, rfl⟩ <;>
      first
      | (refine ⟨s.linearDamping * (s.maxLinearSpeed /
            hypotF (b.state.linear_velocity.1 * s.linearDamping)
              (b.state.linear_velocity.2 * s.linearDamping)),
          mul_pos hld (div_pos hmaxpos hSpos), ?_⟩
         simp only [Prod.mk.injEq]
         constructor <;> ring)
      | (field_simp
         nlinarith [hexact.2])
  · intro maxL maxA nm vy om
    constructor
    · simp [sanitize_velocity_checked, FloatQ.isFinite]
      split_ifs <;> rfl
    · simp [sanitize_velocity_checked, FloatQ.isFinite]
  · intro maxL maxA nm vx vy
    constructor
    · simp only [sanitize_velocity_checked, FloatQ.isFinite, Bool.false_eq_true,
        and_false, false_and, if_false, ite_false, FloatQ.val, abs_zero]
      split_ifs with h1 h2 <;> first
        | rfl
        | exact absurd h1.2 (lt_asymm h1.1)
    · simp [sanitize_velocity_checked, FloatQ.isFinite]

/-- C4 (witness): the amended theorem at a concrete body whose injected
velocity `(3600/199, 4800/199)` damps to `(18, 24)` (speed `30`, above
the ceiling `15`), with a square-root oracle exact at the two points
the step evaluates. -/
theorem C4_witness :
    (15 : ℚ) <
      (fun (x : ℚ) (_ : ℚ) => if x = 18 then (30 : ℚ) else if x = 3 / 40 then 1 / 8 else 0)
        (3600 / 199 * (199 / 200)) (4800 / 199 * (199 / 200)) ∧
    (∃ b' : SimObject,
      (stepModel
        (fun (x : ℚ) (_ : ℚ) => if x = 18 then (30 : ℚ) else if x = 3 / 40 then 1 / 8 else 0)
        (fun _ => (1, 0)) (fun _ _ _ _ => none) (fun _ _ => none) none
        { gravity := (0, 0),
          bodies := [("b",
            { name := "b", pose := { x := 0, y := 0, theta := 0 },
              material := { friction := 9 / 10, restitution := 1 / 10 },
              can_move := true,
              state := { mass := 1, moment_of_inertia := 1,
                         linear_velocity := (3600 / 199, 4800 / 199),
                         angular_velocity := 0, force_accum := (0, 0) } })] }
        none).1.bodies = [("b", b')] ∧
      b'.state.linear_velocity.1 * b'.state.linear_velocity.1 +
        b'.state.linear_velocity.2 * b'.state.linear_velocity.2 = 15 * 15 ∧
      (∃ c : ℚ, 0 < c ∧ b'.state.linear_velocity =
        (c * (3600 / 199), c * (4800 / 199))) ∧
      (stepModel
        (fun (x : ℚ) (_ : ℚ) => if x = 18 then (30 : ℚ) else if x = 3 / 40 then 1 / 8 else 0)
        (fun _ => (1, 0)) (fun _ _ _ _ => none) (fun _ _ => none) none
        { gravity := (0, 0),
          bodies := [("b",
            { name := "b", pose := { x := 0, y := 0, theta := 0 },
              material := { friction := 9 / 10, restitution := 1 / 10 },
              can_move := true,
              state := { mass := 1, moment_of_inertia := 1,
                         linear_velocity := (3600 / 199, 4800 / 199),
                         angular_velocity := 0, force_accum := (0, 0) } })] }
        none).1.lastWarning = some (Warn.clampedLinear "b")) := by
  refine ⟨by norm_num, ?_⟩
  exact (C4_velocity_clamp
    (fun (x : ℚ) (_ : ℚ) => if x = 18 then (30 : ℚ) else if x = 3 / 40 then 1 / 8 else 0)
    (fun _ => (1, 0)) (fun _ _ _ _ => none) (fun _ _ => none) none
    { gravity := (0, 0),
      bodies := [("b",
        { name := "b", pose := { x := 0, y := 0, theta := 0 },
          material := { friction := 9 / 10, restitution := 1 / 10 },
          can_move := true,
          state := { mass := 1, moment_of_inertia := 1,
                     linear_velocity := (3600 / 199, 4800 / 199),
                     angular_velocity := 0, force_accum := (0, 0) } })] }
    none "b"
    { name := "b", pose := { x := 0, y := 0, theta := 0 },
      material := { friction := 9 / 10, restitution := 1 / 10 },
      can_move := true,
      state := { mass := 1, moment_of_inertia := 1,
                 linear_velocity := (3600 / 199, 4800 / 199),
                 angular_velocity := 0, force_accum := (0, 0) } }
    rfl rfl rfl rfl (by norm_num) rfl (by norm_num) (by norm_num)
    (by norm_num [IsExactHypot]) (by norm_num) (by norm_num)
    (by norm_num)).1

end RoboSim
